import Mathlib

/-!
Upload / analysis lifecycle controller of the Arbitrage Analyzer front end

A shallow embedding of the state handling of `frontend/src/App.js` (the React
component `App`) and of the row handler of
`frontend/src/components/UploadHistory.js`.

Modelling conventions.

* A JavaScript value that comes out of a JSON body is a `JsVal`.  A number
  literal is kept as the rational it denotes; the sign of zero is not
  represented.  Objects are key/value lists in insertion order.
* Arithmetic exists twice.  `JsNumber.div`, `JsNumber.mul` and the
  `progress...` functions built on them compute exactly; they are used where
  rounding plays no part (which branch is rendered, division by zero).
  `JsNumber.divWith`, `JsNumber.mulWith` and the `progress...With` functions
  compute as IEEE doubles do, the rounding being the parameter `Rounding`.
* The React state of `App` is the record `State`; every `setX(v)` call is a
  record update, applied in the order of the source.
* An `await`ed HTTP request is represented by its reply, which is an argument
  of the handler: `Except Thrown AxiosResponse`.  A handler is run to
  completion on the state it is given, with no other handler interleaved
  between its `await`s; what it notifies (`toast.*`), which requests it issues
  and what it returns are collected in a `Run`.
* `console.error` is not represented.
-/

namespace Arbitrage

/-! ## JavaScript values -/

/-- JavaScript values as they occur in JSON bodies and in the component state. -/
inductive JsVal where
  | undefined
  | null
  | bool (b : Bool)
  | num (q : ℚ)
  | str (s : String)
  | arr (xs : List JsVal)
  | obj (fields : List (String × JsVal))

namespace JsVal

mutual
/-- Structural equality test on values. -/
def beq : JsVal → JsVal → Bool
  | undefined, undefined => true
  | null, null => true
  | bool a, bool b => a == b
  | num a, num b => a == b
  | str a, str b => a == b
  | arr xs, arr ys => beqList xs ys
  | obj xs, obj ys => beqFields xs ys
  | _, _ => false
/-- Structural equality test on lists of values. -/
def beqList : List JsVal → List JsVal → Bool
  | [], [] => true
  | x :: xs, y :: ys => beq x y && beqList xs ys
  | _, _ => false
/-- Structural equality test on key/value lists. -/
def beqFields : List (String × JsVal) → List (String × JsVal) → Bool
  | [], [] => true
  | (k, x) :: xs, (l, y) :: ys => k == l && beq x y && beqFields xs ys
  | _, _ => false
end

mutual
theorem beq_iff : ∀ (a b : JsVal), beq a b = true ↔ a = b
  | undefined, b => by cases b <;> simp [beq]
  | null, b => by cases b <;> simp [beq]
  | bool a, b => by cases b <;> simp [beq]
  | num a, b => by cases b <;> simp [beq]
  | str a, b => by cases b <;> simp [beq]
  | arr xs, b => by
      cases b <;> simp [beq]
      exact beqList_iff xs _
  | obj xs, b => by
      cases b <;> simp [beq]
      exact beqFields_iff xs _
theorem beqList_iff : ∀ (a b : List JsVal), beqList a b = true ↔ a = b
  | [], b => by cases b <;> simp [beqList]
  | x :: xs, b => by
      cases b with
      | nil => simp [beqList]
      | cons y ys => simp [beqList, beq_iff x y, beqList_iff xs ys]
theorem beqFields_iff : ∀ (a b : List (String × JsVal)), beqFields a b = true ↔ a = b
  | [], b => by cases b <;> simp [beqFields]
  | (k, x) :: xs, b => by
      cases b with
      | nil => simp [beqFields]
      | cons y ys =>
        obtain ⟨l, y⟩ := y
        simp [beqFields, beq_iff x y, beqFields_iff xs ys, and_assoc]
end

instance : DecidableEq JsVal := fun a b =>
  decidable_of_iff (beq a b = true) (beq_iff a b)

instance : Inhabited JsVal := ⟨undefined⟩

/-- ToBoolean: the values that are not `undefined`, `null`, `false`, `0` or `''`. -/
def truthy : JsVal → Bool
  | undefined => false
  | null => false
  | bool b => b
  | num q => decide (q ≠ 0)
  | str s => decide (s ≠ "")
  | arr _ => true
  | obj _ => true

/-- The operator `a || b`. -/
def or (a b : JsVal) : JsVal := if a.truthy then a else b

/-- The operator `a === b`.  Arrays and objects are compared by identity in
JavaScript; two values decoded from JSON bodies are never the same object, so
the comparison of two of them is `false`. -/
def strictEq : JsVal → JsVal → Bool
  | undefined, undefined => true
  | null, null => true
  | bool a, bool b => a == b
  | num a, num b => a == b
  | str a, str b => a == b
  | _, _ => false

/-- Whether a property access on the value throws a `TypeError`. -/
def isNullish : JsVal → Bool
  | undefined => true
  | null => true
  | _ => false

/-- Index keys `0, 1, ...` paired with the elements of a list. -/
def indexed (xs : List JsVal) : List (String × JsVal) :=
  xs.enum.map fun p => (toString p.1, p.2)

/-- The own enumerable properties of a value, which is what `{...v}` copies. -/
def ownProps : JsVal → List (String × JsVal)
  | obj fields => fields
  | arr xs => indexed xs
  | str s => indexed (s.data.map fun c => str (String.singleton c))
  | _ => []

/-- Look a key up in a key/value list; `undefined` when it is absent. -/
def lookup (k : String) : List (String × JsVal) → JsVal
  | [] => undefined
  | (l, v) :: rest => if l = k then v else lookup k rest

/-- The property read `v.k` for a value `v` that is neither `undefined` nor
`null`, for a key `k` that no prototype defines (the keys read by the program are
`status`, `summary`, `items`, `upload_id`, `uploads`, `processed_items`,
`total_items` and `error_message`). -/
def get (v : JsVal) (k : String) : JsVal := lookup k v.ownProps

/-- Write a key in a key/value list: an existing key keeps its place. -/
def setField (k : String) (v : JsVal) : List (String × JsVal) → List (String × JsVal)
  | [] => [(k, v)]
  | (l, w) :: rest => if l = k then (l, v) :: rest else (l, w) :: setField k v rest

end JsVal

/-! ## JavaScript numbers produced by arithmetic -/

/-- The result of an arithmetic expression: a finite number, an infinity or `NaN`. -/
inductive JsNumber where
  | nan
  | posInf
  | negInf
  | fin (q : ℚ)
  deriving DecidableEq

namespace JsNumber

/-- Multiply an infinity of sign `pos` by a finite factor: `NaN` for the factor zero. -/
def scaleInf (pos : Bool) (q : ℚ) : JsNumber :=
  if q = 0 then nan else if (0 < q) = pos then posInf else negInf

/-- The operator `a / b`. -/
def div : JsNumber → JsNumber → JsNumber
  | fin a, fin b =>
    if b = 0 then (if a = 0 then nan else if 0 < a then posInf else negInf) else fin (a / b)
  | fin _, posInf => fin 0
  | fin _, negInf => fin 0
  | posInf, fin b => if 0 ≤ b then posInf else negInf
  | negInf, fin b => if 0 ≤ b then negInf else posInf
  | _, _ => nan

/-- The operator `a * b`. -/
def mul : JsNumber → JsNumber → JsNumber
  | fin a, fin b => fin (a * b)
  | fin a, posInf => scaleInf true a
  | fin a, negInf => scaleInf false a
  | posInf, fin b => scaleInf true b
  | negInf, fin b => scaleInf false b
  | posInf, posInf => posInf
  | negInf, negInf => posInf
  | posInf, negInf => negInf
  | negInf, posInf => negInf
  | _, _ => nan

/-- The function `Math.round`: the nearest integer, halves rounded up. -/
def round : JsNumber → JsNumber
  | fin q => fin (⌊q + 1 / 2⌋ : ℤ)
  | x => x

end JsNumber

/-- ToNumber on the values whose conversion is represented: `none` for strings,
arrays and objects. -/
def JsVal.toNumber : JsVal → Option JsNumber
  | .undefined => some .nan
  | .null => some (.fin 0)
  | .bool b => some (.fin (if b then 1 else 0))
  | .num q => some (.fin q)
  | _ => none

/-! ## Double arithmetic -/

/-- The rounding of IEEE doubles, as far as the component depends on it.
`fl x` is the double nearest to `x` when the exponent range is unbounded above,
and every `x` with `big ≤ |x|` rounds to an infinity.  Rounding is monotone, and
it is exact on every `m / 2 ^ k` with `|m| < 2 ^ 53` and `k ≤ 1022`.  For
binary64 `big` is `2 ^ 1024 - 2 ^ 970`. -/
structure Rounding where
  fl : ℚ → ℚ
  big : ℚ
  mono : ∀ a b : ℚ, a ≤ b → fl a ≤ fl b
  exact_dyadic : ∀ (m : ℤ) (k : ℕ), |m| < 2 ^ 53 → k ≤ 1022 →
    fl ((m : ℚ) / 2 ^ k) = (m : ℚ) / 2 ^ k
  big_large : (2 : ℚ) ^ 53 ≤ big

/-- The double that a real result is rounded to. -/
def Rounding.toDouble (R : Rounding) (x : ℚ) : JsNumber :=
  if R.big ≤ x then .posInf else if x ≤ -R.big then .negInf else .fin (R.fl x)

/-- The rounding that changes nothing below the overflow threshold of binary64. -/
def Rounding.exact : Rounding where
  fl := fun x => x
  big := 2 ^ 1024 - 2 ^ 970
  mono := fun _ _ h => h
  exact_dyadic := fun _ _ _ _ => rfl
  big_large := by norm_num

/-- The operator `a / b` on doubles. -/
def JsNumber.divWith (R : Rounding) : JsNumber → JsNumber → JsNumber
  | .fin a, .fin b => if b = 0 then JsNumber.div (.fin a) (.fin b) else R.toDouble (a / b)
  | a, b => JsNumber.div a b

/-- The operator `a * b` on doubles. -/
def JsNumber.mulWith (R : Rounding) : JsNumber → JsNumber → JsNumber
  | .fin a, .fin b => R.toDouble (a * b)
  | a, b => JsNumber.mul a b

/-- ToNumber with the number literal of the body rounded to a double, as
`JSON.parse` does: a literal beyond the range of doubles is an infinity. -/
def JsVal.toNumberWith (R : Rounding) : JsVal → Option JsNumber
  | .num q => some (R.toDouble q)
  | v => v.toNumber

/-! ## Strings -/

/-- The code points that `String.prototype.trim` strips. -/
def isJsWhitespace (c : Char) : Bool :=
  let n := c.toNat
  (0x09 ≤ n && n ≤ 0x0D) || n == 0x20 || n == 0xA0 || n == 0x1680 ||
    (0x2000 ≤ n && n ≤ 0x200A) || n == 0x2028 || n == 0x2029 || n == 0x202F ||
    n == 0x205F || n == 0x3000 || n == 0xFEFF

/-- The method `s.trim()`. -/
def jsTrim (s : String) : String :=
  String.mk ((s.data.dropWhile isJsWhitespace).reverse.dropWhile isJsWhitespace).reverse

/-! ## HTTP -/

/-- A response as axios hands it over: the HTTP status and the decoded body. -/
structure AxiosResponse where
  status : Nat
  data : JsVal
  deriving DecidableEq

/-- What a `catch (error)` clause receives: `error.response` is the response of
a request that was answered with an error status, and is absent for a request
that got no answer and for a `TypeError` raised by the handler itself. -/
structure Thrown where
  response : Option AxiosResponse
  deriving DecidableEq

/-- The outcome of an awaited request. -/
abbrev Reply := Except Thrown AxiosResponse

/-- The `TypeError` of a property read on `undefined` or `null`. -/
def typeError : Thrown := ⟨none⟩

/-- The requests the component issues, relative to `API_BASE_URL`. -/
inductive Request where
  | getHistory
  | getStatus (uploadId : JsVal)
  | deleteUpload (uploadId : JsVal)
  | postUpload (body : JsVal)
  deriving DecidableEq

/-! ## Notifications -/

/-- The two kinds of toast the component raises. -/
inductive ToastKind where
  | success
  | error
  deriving DecidableEq

/-- The text of a toast: a literal, a value taken from a body, or a template
literal with one interpolated value. -/
inductive ToastMessage where
  | lit (s : String)
  | value (v : JsVal)
  | template (before : String) (v : JsVal) (after : String)
  deriving DecidableEq

/-- The value handed to `toast.success` or `toast.error`, which is what the
toast displays; `none` for a template literal, whose text needs the string
conversion of the interpolated value. -/
def ToastMessage.argument : ToastMessage → Option JsVal
  | .lit s => some (.str s)
  | .value v => some v
  | .template _ _ _ => none

/-- One call of `toast.success` or `toast.error`. -/
structure Toast where
  kind : ToastKind
  message : ToastMessage
  deriving DecidableEq

/-! ## Component state -/

/-- A file handed over by the dropzone; `text` is what `readFileAsText` resolves
to, `none` when the reader fails. -/
structure File where
  name : String
  type : String
  text : Option String
  deriving DecidableEq

/-- The state variable `uploadMethod`. -/
inductive UploadMethod where
  | file
  | text
  deriving DecidableEq

/-- The state variable `mode`. -/
inductive Mode where
  | manifest
  | singleItem
  deriving DecidableEq

/-- The object held in `processingStatus`. -/
structure ProcessingStatus where
  processed : JsVal
  total : JsVal
  deriving DecidableEq

/-- The `useState` variables of `App`. -/
structure State where
  uploadedFile : Option File
  csvText : String
  analysisResults : JsVal
  isAnalyzing : Bool
  uploadProgress : JsNumber
  uploadMethod : UploadMethod
  processingStatus : Option ProcessingStatus
  uploadId : JsVal
  uploadName : String
  uploadHistory : JsVal
  showHistory : Bool
  mode : Mode
  deriving DecidableEq

/-- The initial values of the `useState` calls. -/
def initialState : State where
  uploadedFile := none
  csvText := ""
  analysisResults := .null
  isAnalyzing := false
  uploadProgress := .fin 0
  uploadMethod := .file
  processingStatus := none
  uploadId := .null
  uploadName := ""
  uploadHistory := .arr []
  showHistory := false
  mode := .manifest

/-- The result of running a handler: the state it leaves, the toasts it raised,
the requests it issued (both in order) and its return value. -/
structure Run (α : Type) where
  state : State
  toasts : List Toast
  requests : List Request
  value : α

/-! ## Handlers of `App` -/

/-- The handler `fetchUploadHistory`: on success the cache becomes
`response.data.uploads || []`; a failure (a failed request, or a body that is
`null`) is only logged. -/
def fetchUploadHistory (reply : Reply) (s : State) : Run Unit :=
  match reply with
  | .ok response =>
    if response.data.isNullish then
      { state := s, toasts := [], requests := [.getHistory], value := () }
    else
      { state := { s with uploadHistory := (response.data.get "uploads").or (.arr []) },
        toasts := [], requests := [.getHistory], value := () }
  | .error _ => { state := s, toasts := [], requests := [.getHistory], value := () }

/-- The handler `handleSelectUpload`. -/
def handleSelectUpload (uploadId : JsVal) (reply : Reply) (s : State) : Run Unit :=
  let s := { s with isAnalyzing := true }
  match reply with
  | .ok response =>
    let s := { s with analysisResults := response.data }
    let s := { s with showHistory := false }
    { state := { s with isAnalyzing := false },
      toasts := [⟨.success, .lit "Analysis loaded!"⟩],
      requests := [.getStatus uploadId], value := () }
  | .error _ =>
    { state := { s with isAnalyzing := false },
      toasts := [⟨.error, .lit "Failed to load analysis"⟩],
      requests := [.getStatus uploadId], value := () }

/-- The handler `handleDeleteUpload`; `deleted` is the reply to the DELETE
request and `history` the reply to the refresh that follows a success. -/
def handleDeleteUpload (uploadId : JsVal) (deleted history : Reply) (s : State) : Run Unit :=
  match deleted with
  | .ok _ =>
    let s :=
      if s.analysisResults.truthy && (s.analysisResults.get "upload_id").strictEq uploadId then
        { s with analysisResults := .null, isAnalyzing := false, processingStatus := none,
                 showHistory := true }
      else s
    let r := fetchUploadHistory history s
    { state := r.state,
      toasts := ⟨.success, .lit "Upload deleted successfully!"⟩ :: r.toasts,
      requests := .deleteUpload uploadId :: r.requests, value := () }
  | .error _ =>
    { state := s, toasts := [⟨.error, .lit "Failed to delete upload"⟩],
      requests := [.deleteUpload uploadId], value := () }

/-- The callback `onDrop` of the dropzone, given `acceptedFiles[0]`. -/
def onDrop (file : Option File) (s : State) : Run Unit :=
  match file with
  | some f =>
    if f.type = "text/csv" then
      { state := { s with uploadedFile := some f },
        toasts := [⟨.success, .lit "CSV file uploaded successfully!"⟩], requests := [],
        value := () }
    else
      { state := s, toasts := [⟨.error, .lit "Please upload a valid CSV file"⟩],
        requests := [], value := () }
  | none =>
    { state := s, toasts := [⟨.error, .lit "Please upload a valid CSV file"⟩],
      requests := [], value := () }

/-- The `catch` clause of `pollStatus`. -/
def pollStatusCatch (uploadId : JsVal) (error : Thrown) (s : State) : Run Bool :=
  match error.response with
  | some r =>
    if r.status = 404 then
      { state := { s with isAnalyzing := false, processingStatus := none,
                          analysisResults := .null, showHistory := true },
        toasts := [⟨.error, .lit "Upload was deleted"⟩],
        requests := [.getStatus uploadId], value := true }
    else { state := s, toasts := [], requests := [.getStatus uploadId], value := false }
  | none => { state := s, toasts := [], requests := [.getStatus uploadId], value := false }

/-- The object that `pollStatus` stores in `analysisResults` while the job is
processing: `{...data, items: [], summary: {...data.summary, totalItems,
processedItems, partial: true}}`. -/
def partialResults (data : JsVal) : JsVal :=
  let summary : JsVal :=
    .obj (JsVal.setField "partial" (.bool true)
      (JsVal.setField "processedItems" (data.get "processed_items")
        (JsVal.setField "totalItems" (data.get "total_items") (data.get "summary").ownProps)))
  .obj (JsVal.setField "summary" summary (JsVal.setField "items" (.arr []) data.ownProps))

/-- The function `pollStatus`; `reply` is the reply to `GET /prod/status/<uploadId>`.
The returned value is `true` when polling has to stop. -/
def pollStatus (uploadId : JsVal) (reply : Reply) (s : State) : Run Bool :=
  match reply with
  | .error e => pollStatusCatch uploadId e s
  | .ok response =>
    let data := response.data
    if data.isNullish then pollStatusCatch uploadId typeError s
    else
      let status : ProcessingStatus :=
        { processed := (data.get "processed_items").or (.num 0),
          total := (data.get "total_items").or (.num 0) }
      let s := { s with processingStatus := some status }
      let s :=
        if (data.get "status").strictEq (.str "processing") && (data.get "summary").truthy then
          { s with analysisResults := partialResults data }
        else s
      if (data.get "status").strictEq (.str "completed") then
        { state := { s with analysisResults := data, isAnalyzing := false,
                            processingStatus := none },
          toasts := [⟨.success, .lit "Analysis completed successfully!"⟩],
          requests := [.getStatus uploadId], value := true }
      else if (data.get "status").strictEq (.str "failed") then
        { state := { s with isAnalyzing := false, processingStatus := none },
          toasts := [⟨.error, .value ((data.get "error_message").or (.str "Processing failed"))⟩],
          requests := [.getStatus uploadId], value := true }
      else { state := s, toasts := [], requests := [.getStatus uploadId], value := false }

/-- The interval callback installed by `handleAnalysis` when every reply arrives
before the next tick fires, so that no request is in flight when the interval
is cleared: each tick calls `pollStatus(upload_id)` and the interval is cleared
at the first tick that returns `true`.  The result is the list of the ticks
that ran.  Replies that overlap are the subject of `pollReplies`. -/
def pollInterval (uploadId : JsVal) : List Reply → State → List (Run Bool)
  | [], _ => []
  | reply :: rest, s =>
    let r := pollStatus uploadId reply s
    if r.value then [r] else r :: pollInterval uploadId rest r.state

/-- The state the interval callback leaves behind after the given replies, under
the assumption of `pollInterval` (no request in flight when it is cleared). -/
def pollState (uploadId : JsVal) : List Reply → State → State
  | [], s => s
  | reply :: rest, s =>
    let r := pollStatus uploadId reply s
    if r.value then r.state else pollState uploadId rest r.state

/-- The replies to requests of `pollStatus(upload_id)` in the order in which
they arrive, each one run through the body of `pollStatus`.  Nothing is
dropped: the timer does not wait for a reply and `clearInterval` does not
cancel a request in flight, so replies can still arrive after a tick has
returned `true`. -/
def pollReplies (uploadId : JsVal) : List Reply → State → List (Run Bool)
  | [], _ => []
  | reply :: rest, s =>
    pollStatus uploadId reply s :: pollReplies uploadId rest (pollStatus uploadId reply s).state

/-- The state after the replies of `pollReplies`. -/
def pollRepliesState (uploadId : JsVal) : List Reply → State → State
  | [], s => s
  | reply :: rest, s => pollRepliesState uploadId rest (pollStatus uploadId reply s).state

/-- An `onUploadProgress` event. -/
structure ProgressEvent where
  loaded : ℚ
  total : ℚ

/-- The callback `onUploadProgress`. -/
def onUploadProgress (e : ProgressEvent) (s : State) : State :=
  { s with uploadProgress :=
      JsNumber.round (JsNumber.div (JsNumber.mul (.fin e.loaded) (.fin 100)) (.fin e.total)) }

/-- What `handleAnalysis` does once the payload is known: the three resets, the
POST (during which `events` are reported) and the interpretation of its reply.
The returned value is the id the poll interval is bound to, when one is started. -/
def submit (fileContent filename : String) (events : List ProgressEvent) (reply : Reply)
    (s : State) : Run (Option JsVal) :=
  let s := { s with isAnalyzing := true, uploadProgress := .fin 0, processingStatus := none }
  let body : JsVal := .obj
    [("file", .str fileContent), ("filename", .str filename),
     ("upload_name", (JsVal.str (jsTrim s.uploadName)).or .null)]
  let s := events.foldl (fun st e => onUploadProgress e st) s
  let failed : Run (Option JsVal) :=
    { state := { s with isAnalyzing := false, uploadProgress := .fin 0, processingStatus := none },
      toasts := [⟨.error, .lit "Failed to analyze CSV. Please try again."⟩],
      requests := [.postUpload body], value := none }
  match reply with
  | .ok response =>
    if response.status = 202 then
      if response.data.isNullish then failed
      else
        let upload_id := response.data.get "upload_id"
        let total_items := response.data.get "total_items"
        let status : ProcessingStatus := { processed := .num 0, total := total_items }
        { state := { s with uploadId := upload_id, processingStatus := some status },
          toasts := [⟨.success, .template "Processing " total_items " items..."⟩],
          requests := [.postUpload body], value := some upload_id }
    else
      { state := { s with analysisResults := response.data, isAnalyzing := false },
        toasts := [⟨.success, .lit "Analysis completed successfully!"⟩],
        requests := [.postUpload body], value := none }
  | .error _ => failed

/-- The handler `handleAnalysis`.  When `readFileAsText` rejects, the handler
ends with that rejection before it has changed anything. -/
def handleAnalysis (events : List ProgressEvent) (reply : Reply) (s : State) :
    Run (Option JsVal) :=
  match s.uploadMethod with
  | .file =>
    match s.uploadedFile with
    | none =>
      { state := s, toasts := [⟨.error, .lit "Please upload a CSV file first"⟩],
        requests := [], value := none }
    | some f =>
      match f.text with
      | none => { state := s, toasts := [], requests := [], value := none }
      | some fileContent => submit fileContent f.name events reply s
  | .text =>
    if (JsVal.str (jsTrim s.csvText)).truthy then
      submit s.csvText "pasted-data.csv" events reply s
    else
      { state := s, toasts := [⟨.error, .lit "Please paste CSV data first"⟩],
        requests := [], value := none }

/-- The payload and the file name that `handleAnalysis` posts: `none` when it
stops before the request (no file, a file that cannot be read, blank text). -/
def payload (s : State) : Option (String × String) :=
  match s.uploadMethod with
  | .file =>
    match s.uploadedFile with
    | none => none
    | some f => f.text.map fun fileContent => (fileContent, f.name)
  | .text =>
    if (JsVal.str (jsTrim s.csvText)).truthy then some (s.csvText, "pasted-data.csv") else none

/-- The handler `handleReset`; `history` is the reply to the refresh it issues. -/
def handleReset (history : Reply) (s : State) : Run Unit :=
  fetchUploadHistory history
    { s with uploadedFile := none, csvText := "", analysisResults := .null,
             isAnalyzing := false, uploadProgress := .fin 0, uploadName := "" }

/-! ## Rendering -/

/-- The four branches of the `<main>` element. -/
inductive View where
  | history
  | singleItem
  | upload
  | results
  deriving DecidableEq

/-- The branch of `<main>` that is rendered: `showHistory` first, then
`mode === 'single-item'`, then `!analysisResults`. -/
def activeView (s : State) : View :=
  if s.showHistory then .history
  else if s.mode = .singleItem then .singleItem
  else if !s.analysisResults.truthy then .upload
  else .results

/-- The quotient `processingStatus.processed / processingStatus.total` computed
exactly; `none` when an operand is a string, an array or an object. -/
def progressFraction (ps : ProcessingStatus) : Option JsNumber :=
  match ps.processed.toNumber, ps.total.toNumber with
  | some p, some t => some (JsNumber.div p t)
  | _, _ => none

/-- The expression `Math.round((processingStatus.processed / processingStatus.total) * 100)`
computed exactly. -/
def progressPercent (ps : ProcessingStatus) : Option JsNumber :=
  (progressFraction ps).map fun x => JsNumber.round (JsNumber.mul x (.fin 100))

/-- The percentage shown by the progress bar: the conditional expression
`processingStatus ? Math.round(...) : uploadProgress`. -/
def progressWidth (s : State) : Option JsNumber :=
  match s.processingStatus with
  | some ps => progressPercent ps
  | none => some s.uploadProgress

/-- The progress bar of the upload form, `isAnalyzing && (...)`: `none` when
it is not rendered, otherwise the percentage it shows. -/
def progressBar (s : State) : Option (Option JsNumber) :=
  if activeView s = .upload ∧ s.isAnalyzing = true then some (progressWidth s) else none

/-- The quotient `processingStatus.processed / processingStatus.total` as the
browser computes it, in doubles; `none` when an operand is a string, an array
or an object. -/
def progressFractionWith (R : Rounding) (ps : ProcessingStatus) : Option JsNumber :=
  match ps.processed.toNumberWith R, ps.total.toNumberWith R with
  | some p, some t => some (JsNumber.divWith R p t)
  | _, _ => none

/-- The expression `Math.round((processingStatus.processed / processingStatus.total) * 100)`
as the browser computes it: the quotient and the product are rounded to
doubles, `Math.round` is exact. -/
def progressPercentWith (R : Rounding) (ps : ProcessingStatus) : Option JsNumber :=
  (progressFractionWith R ps).map fun x => JsNumber.round (JsNumber.mulWith R x (.fin 100))

/-! ## The history list (`UploadHistory.js`) -/

/-- The `onClick` of a history row: the argument `onSelectUpload` is called
with, `none` when it is not called. -/
def rowClick (upload : JsVal) : Option JsVal :=
  if (upload.get "status").strictEq (.str "completed") then some (upload.get "upload_id")
  else none

/-! ## Sample inputs -/

/-- A reply that is a failure with HTTP status 404. -/
def notFound (body : JsVal) : Reply := .error ⟨some ⟨404, body⟩⟩

/-- The upload form with the text `a,b\n1,2` pasted. -/
def pastedState : State :=
  { initialState with csvText := "a,b\n1,2", uploadMethod := .text }

/-- The state after a submission has been accepted as job `u2` with 5 items:
`u2` is tracked and being analysed, no result yet. -/
def trackingU2 : State :=
  (handleAnalysis [] (.ok ⟨202, .obj [("upload_id", .str "u2"), ("total_items", .num 5)]⟩)
    pastedState).state

/-- The acknowledgement of a DELETE request. -/
def deleteAck : Reply := .ok ⟨200, .obj [("message", .str "Upload deleted")]⟩

/-- A history reply without entries. -/
def emptyHistory : Reply := .ok ⟨200, .obj [("uploads", .arr [])]⟩

/-- The reply `202` with `upload_id` `u1` and `total_items` 2. -/
def acceptedU1 : AxiosResponse :=
  ⟨202, .obj [("upload_id", .str "u1"), ("total_items", .num 2)]⟩

/-- The state after the submission of `a,b\n1,2` has been accepted as job `u1`. -/
def processingU1 : State := (handleAnalysis [] (.ok acceptedU1) pastedState).state

/-- A `processing` body with a summary, in the shape of the status contract
(no `upload_id` field). -/
def partialBody : JsVal :=
  .obj [("status", .str "processing"), ("processed_items", .num 1), ("total_items", .num 2),
    ("summary", .obj [("profit", .num 3)])]

/-- A `processing` body with a summary that also names its job. -/
def partialBodyU1 : JsVal :=
  .obj [("upload_id", .str "u1"), ("status", .str "processing"), ("processed_items", .num 1),
    ("total_items", .num 2), ("summary", .obj [("profit", .num 3)])]

/-- Job `u1` is being polled, a partial view from `partialBody` has been stored,
and the user has opened the history list. -/
def historyOpenU1 : State :=
  { (pollStatus (.str "u1") (.ok ⟨200, partialBody⟩) processingU1).state with showHistory := true }

/-- Job `u1` is being polled, a partial view from `partialBodyU1` has been
stored, and the user has opened the history list. -/
def displayedU1 : State :=
  { (pollStatus (.str "u1") (.ok ⟨200, partialBodyU1⟩) processingU1).state with
    showHistory := true }

/-- The reply `202` for a manifest in which the server counted no item. -/
def acceptedEmpty : AxiosResponse :=
  ⟨202, .obj [("upload_id", .str "u1"), ("total_items", .num 0)]⟩

/-- A `processing` body that reports more processed items than items. -/
def overshootBody : JsVal :=
  .obj [("status", .str "processing"), ("processed_items", .num 3), ("total_items", .num 2)]

/-- A `completed` body of job `u1` for a manifest without items. -/
def completedEmpty : JsVal :=
  .obj [("upload_id", .str "u1"), ("status", .str "completed"), ("processed_items", .num 0),
    ("total_items", .num 0), ("summary", .obj [("profit", .num 0)]), ("items", .arr [])]

/-- The single-item checker was opened (`Check Single Item`) and then the
history list (`View History`). -/
def singleItemHistory : State :=
  { initialState with mode := .singleItem, showHistory := true }

/-- A `failed` body whose `error_message` is the text of the 404 notification. -/
def failedAsDeleted : JsVal :=
  .obj [("status", .str "failed"), ("error_message", .str "Upload was deleted")]

/-- A `failed` body without `error_message`. -/
def failedPlain : JsVal := .obj [("status", .str "failed")]

/-- A `failed` body with an `error_message`. -/
def failedWithMessage : JsVal :=
  .obj [("status", .str "failed"), ("error_message", .str "Bad header row")]

/-- A CSV file without content. -/
def emptyFile : File := { name := "empty.csv", type := "text/csv", text := some "" }

/-- The upload form after the empty CSV file has been dropped on it. -/
def emptyFileState : State := (onDrop (some emptyFile) initialState).state

/-- The upload form in text mode with only blanks and a line break pasted. -/
def blankTextState : State :=
  { initialState with csvText := "  \n", uploadMethod := .text }

/-- A history reply with two entries. -/
def historyBody : JsVal :=
  .obj [("uploads", .arr
    [.obj [("upload_id", .str "u2"), ("status", .str "processing")],
     .obj [("upload_id", .str "u1"), ("status", .str "completed")]])]

/-- A state whose history cache holds one earlier entry. -/
def cachedHistoryState : State :=
  { initialState with
    uploadHistory := .arr [.obj [("upload_id", .str "u0"), ("status", .str "completed")]] }

/-- A late `completed` body of the earlier job `u1`. -/
def completedU1 : JsVal :=
  .obj [("upload_id", .str "u1"), ("status", .str "completed"), ("processed_items", .num 2),
    ("total_items", .num 2), ("summary", .obj [("profit", .num 7)]),
    ("items", .arr [.obj [("title", .str "a")], .obj [("title", .str "b")]])]

end Arbitrage

namespace Arbitrage

/-! ## Properties of values and key/value lists -/

theorem JsVal.lookup_setField_same (k : String) (v : JsVal) (l : List (String × JsVal)) :
    JsVal.lookup k (JsVal.setField k v l) = v := by
  induction l with
  | nil => simp [JsVal.setField, JsVal.lookup]
  | cons p rest ih =>
    obtain ⟨l, w⟩ := p
    by_cases h : l = k
    · simp [JsVal.setField, JsVal.lookup, h]
    · simp [JsVal.setField, JsVal.lookup, h, ih]

theorem JsVal.lookup_setField_other (k j : String) (v : JsVal) (l : List (String × JsVal))
    (h : j ≠ k) : JsVal.lookup j (JsVal.setField k v l) = JsVal.lookup j l := by
  induction l with
  | nil => simp [JsVal.setField, JsVal.lookup, h.symm]
  | cons p rest ih =>
    obtain ⟨l, w⟩ := p
    by_cases hl : l = k
    · subst hl
      simp [JsVal.setField, JsVal.lookup, h.symm]
    · by_cases hj : l = j
      · subst hj
        simp [JsVal.setField, JsVal.lookup, hl]
      · simp [JsVal.setField, JsVal.lookup, hl, hj, ih]

theorem JsVal.strictEq_str (v : JsVal) (a : String) :
    v.strictEq (.str a) = true ↔ v = .str a := by
  cases v <;> simp [JsVal.strictEq]

theorem JsVal.get_of_isNullish (v : JsVal) (k : String) (h : v.isNullish = true) :
    v.get k = .undefined := by
  cases v <;> simp_all [JsVal.isNullish, JsVal.get, JsVal.ownProps, JsVal.lookup]

theorem JsVal.isNullish_of_get (v : JsVal) (k : String) (h : v.get k ≠ .undefined) :
    v.isNullish = false := by
  cases hv : v.isNullish
  · rfl
  · exact absurd (JsVal.get_of_isNullish v k hv) h

/-! ## The poll tick -/

theorem pollStatus_notFound (uploadId body : JsVal) (s : State) :
    pollStatus uploadId (notFound body) s =
      { state := { s with isAnalyzing := false, processingStatus := none,
                          analysisResults := .null, showHistory := true },
        toasts := [⟨.error, .lit "Upload was deleted"⟩],
        requests := [.getStatus uploadId], value := true } := by
  simp [pollStatus, notFound, pollStatusCatch]

theorem pollStatus_completed (uploadId : JsVal) (response : AxiosResponse) (s : State)
    (h : (response.data.get "status").strictEq (.str "completed") = true) :
    pollStatus uploadId (.ok response) s =
      { state := { s with analysisResults := response.data, isAnalyzing := false,
                          processingStatus := none },
        toasts := [⟨.success, .lit "Analysis completed successfully!"⟩],
        requests := [.getStatus uploadId], value := true } := by
  have hs := (JsVal.strictEq_str _ _).1 h
  have hn : response.data.isNullish = false :=
    JsVal.isNullish_of_get _ "status" (by rw [hs]; simp)
  simp [pollStatus, hn, hs, JsVal.strictEq]

theorem pollStatus_failed (uploadId : JsVal) (response : AxiosResponse) (s : State)
    (h : (response.data.get "status").strictEq (.str "failed") = true) :
    pollStatus uploadId (.ok response) s =
      { state := { s with isAnalyzing := false, processingStatus := none },
        toasts := [⟨.error,
          .value ((response.data.get "error_message").or (.str "Processing failed"))⟩],
        requests := [.getStatus uploadId], value := true } := by
  have hs := (JsVal.strictEq_str _ _).1 h
  have hn : response.data.isNullish = false :=
    JsVal.isNullish_of_get _ "status" (by rw [hs]; simp)
  simp [pollStatus, hn, hs, JsVal.strictEq]

theorem pollStatus_processing_summary (uploadId : JsVal) (response : AxiosResponse) (s : State)
    (h : (response.data.get "status").strictEq (.str "processing") = true)
    (hsum : (response.data.get "summary").truthy = true) :
    pollStatus uploadId (.ok response) s =
      { state := { s with
          processingStatus := some
            ⟨(response.data.get "processed_items").or (.num 0),
             (response.data.get "total_items").or (.num 0)⟩,
          analysisResults := partialResults response.data },
        toasts := [], requests := [.getStatus uploadId], value := false } := by
  have hs := (JsVal.strictEq_str _ _).1 h
  have hn : response.data.isNullish = false :=
    JsVal.isNullish_of_get _ "status" (by rw [hs]; simp)
  simp [pollStatus, hn, hs, hsum, JsVal.strictEq]

theorem fetchUploadHistory_state (reply : Reply) (s : State) :
    ∃ h, (fetchUploadHistory reply s).state = { s with uploadHistory := h } := by
  cases reply with
  | error e => exact ⟨s.uploadHistory, by simp [fetchUploadHistory]⟩
  | ok response =>
    by_cases hn : response.data.isNullish = true
    · exact ⟨s.uploadHistory, by simp [fetchUploadHistory, hn]⟩
    · exact ⟨(response.data.get "uploads").or (.arr []), by simp [fetchUploadHistory, hn]⟩

theorem handleDeleteUpload_displayed (s : State) (u : JsVal) (deleted : AxiosResponse)
    (history : Reply) (hres : s.analysisResults.truthy = true)
    (hid : (s.analysisResults.get "upload_id").strictEq u = true) :
    ∃ h, (handleDeleteUpload u (.ok deleted) history s).state =
      { s with analysisResults := .null, isAnalyzing := false, processingStatus := none,
               showHistory := true, uploadHistory := h } := by
  obtain ⟨h, hh⟩ := fetchUploadHistory_state history
    { s with analysisResults := .null, isAnalyzing := false, processingStatus := none,
             showHistory := true }
  exact ⟨h, by simp [handleDeleteUpload, hres, hid, hh]⟩

/-! ## Submission -/

theorem handleAnalysis_of_payload (events : List ProgressEvent) (reply : Reply) (s : State)
    (fileContent filename : String) (h : payload s = some (fileContent, filename)) :
    handleAnalysis events reply s = submit fileContent filename events reply s := by
  unfold payload at h
  unfold handleAnalysis
  cases hm : s.uploadMethod with
  | file =>
    rw [hm] at h
    cases hf : s.uploadedFile with
    | none => simp [hf] at h
    | some f =>
      cases ht : f.text with
      | none => simp [hf, ht] at h
      | some c =>
        simp [hf, ht] at h
        simp only [ht]
        rw [h.1, h.2]
  | text =>
    rw [hm] at h
    by_cases hc : (JsVal.str (jsTrim s.csvText)).truthy = true
    · simp [hc] at h
      simp only [hc, if_true]
      rw [h.1, h.2]
    · simp [hc] at h

theorem foldl_onUploadProgress (events : List ProgressEvent) (s : State) :
    ∃ u, events.foldl (fun st e => onUploadProgress e st) s = { s with uploadProgress := u } := by
  induction events generalizing s with
  | nil => exact ⟨s.uploadProgress, rfl⟩
  | cons e rest ih =>
    obtain ⟨u, hu⟩ := ih (onUploadProgress e s)
    refine ⟨u, ?_⟩
    rw [List.foldl_cons, hu]
    rfl

theorem submit_accepted (fileContent filename : String) (events : List ProgressEvent)
    (response : AxiosResponse) (s : State) (h202 : response.status = 202)
    (hbody : response.data.isNullish = false) :
    ∃ u, submit fileContent filename events (.ok response) s =
      { state := { s with isAnalyzing := true, uploadProgress := u,
                          uploadId := response.data.get "upload_id",
                          processingStatus := some ⟨.num 0, response.data.get "total_items"⟩ },
        toasts := [⟨.success, .template "Processing " (response.data.get "total_items") " items..."⟩],
        requests := [.postUpload (.obj
          [("file", .str fileContent), ("filename", .str filename),
           ("upload_name", (JsVal.str (jsTrim s.uploadName)).or .null)])],
        value := some (response.data.get "upload_id") } := by
  obtain ⟨u, hu⟩ := foldl_onUploadProgress events
    { s with isAnalyzing := true, uploadProgress := .fin 0, processingStatus := none }
  exact ⟨u, by simp [submit, h202, hbody, hu]⟩

theorem submit_synchronous (fileContent filename : String) (events : List ProgressEvent)
    (response : AxiosResponse) (s : State) (h202 : response.status ≠ 202) :
    ∃ u, submit fileContent filename events (.ok response) s =
      { state := { s with isAnalyzing := false, uploadProgress := u, processingStatus := none,
                          analysisResults := response.data },
        toasts := [⟨.success, .lit "Analysis completed successfully!"⟩],
        requests := [.postUpload (.obj
          [("file", .str fileContent), ("filename", .str filename),
           ("upload_name", (JsVal.str (jsTrim s.uploadName)).or .null)])],
        value := none } := by
  obtain ⟨u, hu⟩ := foldl_onUploadProgress events
    { s with isAnalyzing := true, uploadProgress := .fin 0, processingStatus := none }
  exact ⟨u, by simp [submit, h202, hu]⟩

theorem pollStatus_processing_value (uploadId : JsVal) (response : AxiosResponse) (s : State)
    (h : (response.data.get "status").strictEq (.str "processing") = true) :
    (pollStatus uploadId (.ok response) s).value = false ∧
    ((pollStatus uploadId (.ok response) s).state.analysisResults = s.analysisResults ∨
      (pollStatus uploadId (.ok response) s).state.analysisResults.get "items" = .arr []) := by
  have hs := (JsVal.strictEq_str _ _).1 h
  have hn : response.data.isNullish = false :=
    JsVal.isNullish_of_get _ "status" (by rw [hs]; simp)
  by_cases hsum : (response.data.get "summary").truthy = true
  · rw [pollStatus_processing_summary uploadId response s h hsum]
    refine ⟨rfl, Or.inr ?_⟩
    simp only [partialResults, JsVal.get, JsVal.ownProps]
    rw [JsVal.lookup_setField_other _ _ _ _ (by decide), JsVal.lookup_setField_same]
  · simp [pollStatus, hn, hs, hsum, JsVal.strictEq]

theorem pollState_append (uploadId : JsVal) (before : List AxiosResponse) (rest : List Reply)
    (s : State)
    (h : ∀ r ∈ before, (r.data.get "status").strictEq (.str "processing") = true) :
    pollState uploadId (before.map .ok ++ rest) s
      = pollState uploadId rest (pollState uploadId (before.map .ok) s) := by
  induction before generalizing s with
  | nil => rfl
  | cons r more ih =>
    have hv := (pollStatus_processing_value uploadId r s (h r (by simp))).1
    simp only [List.map_cons, List.cons_append, pollState, hv]
    exact ih _ (fun x hx => h x (by simp [hx]))

theorem pollInterval_length (uploadId : JsVal) (before : List AxiosResponse)
    (last : AxiosResponse) (s : State)
    (h : ∀ r ∈ before, (r.data.get "status").strictEq (.str "processing") = true) :
    (pollInterval uploadId ((before ++ [last]).map .ok) s).length = before.length + 1 := by
  induction before generalizing s with
  | nil =>
    simp only [List.nil_append, List.map_cons, List.map_nil, pollInterval]
    split <;> simp [pollInterval]
  | cons r more ih =>
    have hv := (pollStatus_processing_value uploadId r s (h r (by simp))).1
    have ih2 := ih (pollStatus uploadId (.ok r) s).state (fun x hx => h x (by simp [hx]))
    simp only [List.cons_append, List.map_cons, pollInterval, hv]
    simp only [Bool.false_eq_true, if_false, List.length_cons]
    exact congrArg (· + 1) ih2

/-! ## More on the poll tick -/

theorem pollStatus_error_other (uploadId : JsVal) (e : Thrown) (s : State)
    (h : ∀ r, e.response = some r → r.status ≠ 404) :
    pollStatus uploadId (.error e) s =
      { state := s, toasts := [], requests := [.getStatus uploadId], value := false } := by
  obtain ⟨r⟩ := e
  cases r with
  | none => simp [pollStatus, pollStatusCatch]
  | some r =>
    have h404 : r.status ≠ 404 := h r rfl
    simp [pollStatus, pollStatusCatch, h404]

theorem JsVal.or_eq_of_truthy (a b : JsVal) (h : a.truthy = true) : a.or b = a := by
  simp [JsVal.or, h]

theorem JsVal.or_eq_of_not_truthy (a b : JsVal) (h : a.truthy = false) : a.or b = b := by
  simp [JsVal.or, h]

/-! ## The history handlers -/

theorem handleSelectUpload_error (uploadId : JsVal) (e : Thrown) (s : State) :
    handleSelectUpload uploadId (.error e) s =
      { state := { s with isAnalyzing := false },
        toasts := [⟨.error, .lit "Failed to load analysis"⟩],
        requests := [.getStatus uploadId], value := () } := by
  simp [handleSelectUpload]

theorem handleSelectUpload_ok (uploadId : JsVal) (response : AxiosResponse) (s : State) :
    handleSelectUpload uploadId (.ok response) s =
      { state := { s with analysisResults := response.data, showHistory := false,
                          isAnalyzing := false },
        toasts := [⟨.success, .lit "Analysis loaded!"⟩],
        requests := [.getStatus uploadId], value := () } := by
  simp [handleSelectUpload]

theorem submit_failed (fileContent filename : String) (events : List ProgressEvent)
    (e : Thrown) (s : State) :
    submit fileContent filename events (.error e) s =
      { state := { s with isAnalyzing := false, uploadProgress := .fin 0,
                          processingStatus := none },
        toasts := [⟨.error, .lit "Failed to analyze CSV. Please try again."⟩],
        requests := [.postUpload (.obj
          [("file", .str fileContent), ("filename", .str filename),
           ("upload_name", (JsVal.str (jsTrim s.uploadName)).or .null)])],
        value := none } := by
  obtain ⟨u, hu⟩ := foldl_onUploadProgress events
    { s with isAnalyzing := true, uploadProgress := .fin 0, processingStatus := none }
  simp [submit, hu]

/-- In manifest mode a successful `handleSelectUpload` with a non-empty body
renders the results view for that body, whatever `showHistory` was. -/
theorem handleSelectUpload_manifest_shows_results (s : State) (uploadId : JsVal)
    (response : AxiosResponse) (hmode : s.mode = .manifest)
    (hbody : response.data.truthy = true) :
    (handleSelectUpload uploadId (.ok response) s).state.analysisResults = response.data ∧
    activeView (handleSelectUpload uploadId (.ok response) s).state = .results := by
  rw [handleSelectUpload_ok]
  simp [activeView, hmode, hbody]

/-! ## Validation -/

theorem jsTrim_of_all_whitespace (t : String) (h : t.data.all isJsWhitespace = true) :
    jsTrim t = "" := by
  have h1 : t.data.dropWhile isJsWhitespace = [] := by
    rw [List.dropWhile_eq_nil_iff]
    intro c hc
    exact List.all_eq_true.1 h c hc
  simp [jsTrim, h1]

theorem handleAnalysis_no_file (events : List ProgressEvent) (reply : Reply) (s : State)
    (hm : s.uploadMethod = .file) (hf : s.uploadedFile = none) :
    handleAnalysis events reply s =
      { state := s, toasts := [⟨.error, .lit "Please upload a CSV file first"⟩],
        requests := [], value := none } := by
  simp [handleAnalysis, hm, hf]

theorem handleAnalysis_blank_text (events : List ProgressEvent) (reply : Reply) (s : State)
    (hm : s.uploadMethod = .text) (hb : s.csvText.data.all isJsWhitespace = true) :
    handleAnalysis events reply s =
      { state := s, toasts := [⟨.error, .lit "Please paste CSV data first"⟩],
        requests := [], value := none } := by
  simp [handleAnalysis, hm, jsTrim_of_all_whitespace _ hb, JsVal.truthy]

/-! ## Counting notifications -/

theorem pollStatus_toasts_length (uploadId : JsVal) (reply : Reply) (s : State) :
    (pollStatus uploadId reply s).toasts.length
      = if (pollStatus uploadId reply s).value = true then 1 else 0 := by
  cases reply with
  | error e =>
    obtain ⟨r⟩ := e
    cases r with
    | none => simp [pollStatus, pollStatusCatch]
    | some r => by_cases h : r.status = 404 <;> simp [pollStatus, pollStatusCatch, h]
  | ok response =>
    by_cases h1 : response.data.isNullish = true
    · simp [pollStatus, pollStatusCatch, typeError, h1]
    · by_cases h2 : (response.data.get "status").strictEq (.str "completed") = true
      · rw [pollStatus_completed uploadId response s h2]
        rfl
      · by_cases h3 : (response.data.get "status").strictEq (.str "failed") = true
        · rw [pollStatus_failed uploadId response s h3]
          rfl
        · simp [pollStatus, h1, h2, h3]

theorem fetchUploadHistory_toasts (reply : Reply) (s : State) :
    (fetchUploadHistory reply s).toasts = [] ∧
    (fetchUploadHistory reply s).requests = [.getHistory] := by
  cases reply with
  | error e => simp [fetchUploadHistory]
  | ok response =>
    by_cases hn : response.data.isNullish = true <;> simp [fetchUploadHistory, hn]

theorem handleDeleteUpload_toasts_length (uploadId : JsVal) (deleted history : Reply)
    (s : State) : (handleDeleteUpload uploadId deleted history s).toasts.length = 1 := by
  cases deleted with
  | error e => simp [handleDeleteUpload]
  | ok response => simp [handleDeleteUpload, (fetchUploadHistory_toasts history _).1]

theorem handleSelectUpload_toasts_length (uploadId : JsVal) (reply : Reply) (s : State) :
    (handleSelectUpload uploadId reply s).toasts.length = 1 := by
  cases reply <;> simp [handleSelectUpload]

/-! ## Replies that overlap -/

theorem pollStatus_keeps_history (uploadId : JsVal) (reply : Reply) (s : State)
    (hh : s.showHistory = true) (ha : s.isAnalyzing = false) :
    (pollStatus uploadId reply s).state.showHistory = true ∧
    (pollStatus uploadId reply s).state.isAnalyzing = false := by
  cases reply with
  | error e =>
    obtain ⟨r⟩ := e
    cases r with
    | none => simp [pollStatus, pollStatusCatch, hh, ha]
    | some r => by_cases h : r.status = 404 <;> simp [pollStatus, pollStatusCatch, h, hh, ha]
  | ok response =>
    by_cases h1 : response.data.isNullish = true
    · simp [pollStatus, pollStatusCatch, typeError, h1, hh, ha]
    · by_cases h2 : (response.data.get "status").strictEq (.str "completed") = true <;>
      by_cases h3 : (response.data.get "status").strictEq (.str "failed") = true <;>
      by_cases h4 : ((response.data.get "status").strictEq (.str "processing") &&
          (response.data.get "summary").truthy) = true <;>
      simp [pollStatus, h1, h2, h3, h4, hh, ha]

theorem pollStatus_analysisResults (uploadId : JsVal) (reply : Reply) (s : State) :
    (pollStatus uploadId reply s).state.analysisResults
      = (match reply with
        | .ok response =>
          if (response.data.get "status").strictEq (.str "completed") then response.data
          else if (response.data.get "status").strictEq (.str "processing") &&
              (response.data.get "summary").truthy then partialResults response.data
          else s.analysisResults
        | .error e =>
          match e.response with
          | some r => if r.status = 404 then .null else s.analysisResults
          | none => s.analysisResults) := by
  cases reply with
  | error e =>
    obtain ⟨r⟩ := e
    cases r with
    | none => simp [pollStatus, pollStatusCatch]
    | some r => by_cases h : r.status = 404 <;> simp [pollStatus, pollStatusCatch, h]
  | ok response =>
    by_cases h1 : response.data.isNullish = true
    · simp [pollStatus, pollStatusCatch, typeError, h1, JsVal.get_of_isNullish _ _ h1,
        JsVal.strictEq]
    · by_cases h2 : (response.data.get "status").strictEq (.str "completed") = true <;>
      by_cases h3 : (response.data.get "status").strictEq (.str "failed") = true <;>
      by_cases h4 : ((response.data.get "status").strictEq (.str "processing") &&
          (response.data.get "summary").truthy) = true <;>
      simp [pollStatus, h1, h2, h3, h4]

theorem pollRepliesState_append (uploadId : JsVal) (first second : List Reply) (s : State) :
    pollRepliesState uploadId (first ++ second) s
      = pollRepliesState uploadId second (pollRepliesState uploadId first s) := by
  induction first generalizing s with
  | nil => rfl
  | cons r rest ih =>
    simp only [List.cons_append, pollRepliesState]
    exact ih _

theorem pollRepliesState_keeps_history (uploadId : JsVal) (replies : List Reply) (s : State)
    (hh : s.showHistory = true) (ha : s.isAnalyzing = false) :
    (pollRepliesState uploadId replies s).showHistory = true ∧
    (pollRepliesState uploadId replies s).isAnalyzing = false := by
  induction replies generalizing s with
  | nil => exact ⟨hh, ha⟩
  | cons r rest ih =>
    have h := pollStatus_keeps_history uploadId r s hh ha
    simp only [pollRepliesState]
    exact ih _ h.1 h.2

theorem pollRepliesState_stays_null (uploadId : JsVal) (replies : List Reply) (s : State)
    (hnull : s.analysisResults = .null)
    (hall : ∀ reply ∈ replies, ∀ response, reply = .ok response →
      (response.data.get "status").strictEq (.str "completed") = false ∧
      ((response.data.get "status").strictEq (.str "processing") &&
        (response.data.get "summary").truthy) = false) :
    (pollRepliesState uploadId replies s).analysisResults = .null := by
  induction replies generalizing s with
  | nil => exact hnull
  | cons r rest ih =>
    simp only [pollRepliesState]
    apply ih
    · rw [pollStatus_analysisResults]
      cases r with
      | error e =>
        obtain ⟨x⟩ := e
        cases x with
        | none => simpa using hnull
        | some x => by_cases h404 : x.status = 404 <;> simp [h404, hnull]
      | ok response =>
        have hr := hall (.ok response) (by simp) response rfl
        simp only [hr.1, hr.2]
        simpa using hnull
    · intro reply hmem response hresp
      exact hall reply (List.mem_cons_of_mem _ hmem) response hresp

theorem pollRepliesState_notFound (uploadId body : JsVal) (n : Nat) (s : State) :
    pollRepliesState uploadId (List.replicate (n + 1) (notFound body)) s
      = (pollStatus uploadId (notFound body) s).state := by
  induction n generalizing s with
  | zero => rfl
  | succ k ih =>
    rw [List.replicate_succ, pollRepliesState, ih]
    simp [pollStatus_notFound]

theorem pollReplies_notFound_toasts (uploadId body : JsVal) (n : Nat) (s : State) :
    ((pollReplies uploadId (List.replicate n (notFound body)) s).map fun r => r.toasts).flatten
      = List.replicate n ⟨.error, .lit "Upload was deleted"⟩ := by
  induction n generalizing s with
  | zero => rfl
  | succ k ih =>
    rw [List.replicate_succ, pollReplies, List.map_cons, List.flatten_cons, ih,
      pollStatus_notFound]
    rfl

/-! ## Double arithmetic -/

theorem Rounding.fl_int (R : Rounding) (m : ℤ) (h : |m| < 2 ^ 53) : R.fl (m : ℚ) = (m : ℚ) := by
  have := R.exact_dyadic m 0 h (by norm_num)
  simpa using this

theorem Rounding.big_pos (R : Rounding) : (100 : ℚ) < R.big :=
  lt_of_lt_of_le (by norm_num) R.big_large

theorem Rounding.toDouble_of_lt (R : Rounding) (x : ℚ) (h0 : 0 ≤ x) (h1 : x < R.big) :
    R.toDouble x = .fin (R.fl x) := by
  have hb := R.big_pos
  have h2 : ¬ (R.big ≤ x) := not_le.2 h1
  have h3 : ¬ (x ≤ -R.big) := by
    intro h
    linarith
  simp [Rounding.toDouble, h2, h3]

theorem Rounding.fl_unit (R : Rounding) (x : ℚ) (h0 : 0 ≤ x) (h1 : x ≤ 1) :
    0 ≤ R.fl x ∧ R.fl x ≤ 1 := by
  have z : R.fl (0 : ℚ) = 0 := by simpa using R.fl_int 0 (by norm_num)
  have o : R.fl (1 : ℚ) = 1 := by simpa using R.fl_int 1 (by norm_num)
  exact ⟨z ▸ R.mono 0 x h0, o ▸ R.mono x 1 h1⟩

theorem Rounding.fl_percent (R : Rounding) (x : ℚ) (h0 : 0 ≤ x) (h1 : x ≤ 100) :
    0 ≤ R.fl x ∧ R.fl x ≤ 100 := by
  have z : R.fl (0 : ℚ) = 0 := by simpa using R.fl_int 0 (by norm_num)
  have o : R.fl (100 : ℚ) = 100 := by simpa using R.fl_int 100 (by norm_num)
  exact ⟨z ▸ R.mono 0 x h0, o ▸ R.mono x 100 h1⟩

theorem round_percent_bounds (x : ℚ) (h0 : 0 ≤ x) (h1 : x ≤ 100) :
    (0 : ℚ) ≤ ((⌊x + 1 / 2⌋ : ℤ) : ℚ) ∧ ((⌊x + 1 / 2⌋ : ℤ) : ℚ) ≤ 100 := by
  constructor
  · have : (0 : ℤ) ≤ ⌊x + 1 / 2⌋ := Int.floor_nonneg.2 (by positivity)
    exact_mod_cast this
  · have : ⌊x + 1 / 2⌋ < (101 : ℤ) := Int.floor_lt.2 (by push_cast; linarith)
    have h : ⌊x + 1 / 2⌋ ≤ (100 : ℤ) := by omega
    exact_mod_cast h

/-- The quotient and the percentage of two doubles `0 ≤ p ≤ t`, `0 < t`. -/
theorem progressWith_of_le (R : Rounding) (p t : ℚ) (ht : 0 < t) (hp : 0 ≤ p) (hpt : p ≤ t)
    (hdp : R.fl p = p) (hdt : R.fl t = t) (hfin : t < R.big) :
    progressFractionWith R ⟨.num p, .num t⟩ = some (.fin (R.fl (p / t))) ∧
    progressPercentWith R ⟨.num p, .num t⟩
      = some (.fin ((⌊R.fl (R.fl (p / t) * 100) + 1 / 2⌋ : ℤ) : ℚ)) := by
  have hb := R.big_pos
  have hq0 : 0 ≤ p / t := div_nonneg hp ht.le
  have hq1 : p / t ≤ 1 := (div_le_one ht).2 hpt
  have hf := R.fl_unit (p / t) hq0 hq1
  have e1 : R.toDouble p = .fin p := by
    rw [R.toDouble_of_lt p hp (lt_of_le_of_lt hpt hfin), hdp]
  have e2 : R.toDouble t = .fin t := by
    rw [R.toDouble_of_lt t ht.le hfin, hdt]
  have e3 : R.toDouble (p / t) = .fin (R.fl (p / t)) :=
    R.toDouble_of_lt _ hq0 (by linarith)
  have e4 : R.toDouble (R.fl (p / t) * 100) = .fin (R.fl (R.fl (p / t) * 100)) :=
    R.toDouble_of_lt _ (by nlinarith [hf.1]) (by nlinarith [hf.2])
  have hfrac : progressFractionWith R ⟨.num p, .num t⟩ = some (.fin (R.fl (p / t))) := by
    simp [progressFractionWith, JsVal.toNumberWith, e1, e2, JsNumber.divWith, ht.ne', e3]
  refine ⟨hfrac, ?_⟩
  simp [progressPercentWith, hfrac, JsNumber.mulWith, e4, JsNumber.round]

/-! ## C1 -/

/-- C1 (counterexample): the state tracks job `u2` (just accepted, being analysed,
no result yet); a late `completed` reply of the poll for the other id `u1`
replaces `analysisResults`, `isAnalyzing` and `processingStatus`, and a late 404
of that poll switches `showHistory`. -/
theorem C1_late_reply_overwrites :
    trackingU2.uploadId = .str "u2" ∧
    trackingU2.analysisResults = .null ∧
    trackingU2.isAnalyzing = true ∧
    trackingU2.processingStatus = some ⟨.num 0, .num 5⟩ ∧
    trackingU2.showHistory = false ∧
    (pollStatus (.str "u1") (.ok ⟨200, completedU1⟩) trackingU2).state.analysisResults
      = completedU1 ∧
    (pollStatus (.str "u1") (.ok ⟨200, completedU1⟩) trackingU2).state.isAnalyzing = false ∧
    (pollStatus (.str "u1") (.ok ⟨200, completedU1⟩) trackingU2).state.processingStatus = none ∧
    (pollStatus (.str "u1") (notFound .null) trackingU2).state.showHistory = true := by
  decide

/-- C1 (amended): `pollStatus` has no job-id check.  In a state that tracks job
`B`, a reply of the poll for a different id `A` is applied exactly as the same
reply of the poll for `B` would be: a 404 clears the result and opens the
history, `completed` stores the body, `failed` ends the analysis, `processing`
with a summary stores the progress and the partial view.  Only the tracked
`uploadId` is left as it was. -/
theorem C1_pollStatus_applies_any_id (s : State) (A B : JsVal) (hB : s.uploadId = B)
    (_hAB : A ≠ B) :
    (∀ reply, (pollStatus A reply s).state = (pollStatus B reply s).state ∧
        (pollStatus A reply s).toasts = (pollStatus B reply s).toasts ∧
        (pollStatus A reply s).value = (pollStatus B reply s).value ∧
        (pollStatus A reply s).state.uploadId = B ∧
        (pollStatus A reply s).requests = [.getStatus A]) ∧
    (∀ body, (pollStatus A (notFound body) s).state =
        { s with isAnalyzing := false, processingStatus := none, analysisResults := .null,
                 showHistory := true }) ∧
    (∀ response, (response.data.get "status").strictEq (.str "completed") = true →
        (pollStatus A (.ok response) s).state =
          { s with analysisResults := response.data, isAnalyzing := false,
                   processingStatus := none }) ∧
    (∀ response, (response.data.get "status").strictEq (.str "failed") = true →
        (pollStatus A (.ok response) s).state =
          { s with isAnalyzing := false, processingStatus := none }) ∧
    (∀ response, (response.data.get "status").strictEq (.str "processing") = true →
        (response.data.get "summary").truthy = true →
        (pollStatus A (.ok response) s).state =
          { s with
            processingStatus := some
              ⟨(response.data.get "processed_items").or (.num 0),
               (response.data.get "total_items").or (.num 0)⟩,
            analysisResults := partialResults response.data }) := by
  refine ⟨?_, ?_, ?_, ?_, ?_⟩
  · intro reply
    rw [← hB]
    cases reply with
    | error e =>
      obtain ⟨r⟩ := e
      cases r with
      | none => simp [pollStatus, pollStatusCatch]
      | some r => by_cases h : r.status = 404 <;> simp [pollStatus, pollStatusCatch, h]
    | ok response =>
      by_cases h1 : response.data.isNullish = true
      · simp [pollStatus, pollStatusCatch, typeError, h1]
      · by_cases h2 : (response.data.get "status").strictEq (.str "completed") = true <;>
        by_cases h3 : (response.data.get "status").strictEq (.str "failed") = true <;>
        by_cases h4 : ((response.data.get "status").strictEq (.str "processing") &&
            (response.data.get "summary").truthy) = true <;>
        simp [pollStatus, h1, h2, h3, h4]
  · intro body
    rw [pollStatus_notFound]
  · intro response h
    rw [pollStatus_completed A response s h]
  · intro response h
    rw [pollStatus_failed A response s h]
  · intro response h hsum
    rw [pollStatus_processing_summary A response s h hsum]

theorem C1_pollStatus_applies_any_id_witness :
    trackingU2.uploadId = .str "u2" ∧ JsVal.str "u1" ≠ JsVal.str "u2" ∧
    (pollStatus (.str "u1") (.ok ⟨200, completedU1⟩) trackingU2).state =
      { trackingU2 with analysisResults := completedU1, isAnalyzing := false,
                        processingStatus := none } :=
  ⟨by decide, by decide,
    (C1_pollStatus_applies_any_id trackingU2 (.str "u1") (.str "u2") (by decide)
      (by decide)).2.2.1 ⟨200, completedU1⟩ (by decide)⟩


/-! ## C2 -/

/-- C2 (failing input): job `u1` is the job being polled in both states.  In
`processingU1` it has been accepted and no partial result has arrived
(`analysisResults = null`): a successful delete of `u1` skips the cleanup, so
`isAnalyzing` stays `true`, `processingStatus` stays `{processed: 0, total: 2}`
and `showHistory` is not set.  In `historyOpenU1` a partial view has arrived
from a status body that has no `upload_id` field: a successful delete of `u1`
does not clear the result. -/
theorem C2_delete_polled_job_not_cleared :
    processingU1.uploadId = .str "u1" ∧ processingU1.isAnalyzing = true ∧
    processingU1.analysisResults = .null ∧
    (handleDeleteUpload (.str "u1") deleteAck emptyHistory processingU1).state.isAnalyzing
      = true ∧
    (handleDeleteUpload (.str "u1") deleteAck emptyHistory processingU1).state.processingStatus
      = some ⟨.num 0, .num 2⟩ ∧
    (handleDeleteUpload (.str "u1") deleteAck emptyHistory processingU1).state.showHistory
      = false ∧
    (handleDeleteUpload (.str "u1") deleteAck emptyHistory processingU1).toasts
      = [⟨.success, .lit "Upload deleted successfully!"⟩] ∧
    historyOpenU1.uploadId = .str "u1" ∧ historyOpenU1.isAnalyzing = true ∧
    (handleDeleteUpload (.str "u1") deleteAck emptyHistory historyOpenU1).state.analysisResults
      = partialResults partialBody ∧
    partialResults partialBody ≠ .null ∧
    (handleDeleteUpload (.str "u1") deleteAck emptyHistory historyOpenU1).state.isAnalyzing
      = true := by
  decide

/-- When `analysisResults` is non-null and its `upload_id` is `u`, a successful
`handleDeleteUpload(u)` ends with `analysisResults = null`, `showHistory = true`
and the history list as the presented view, whatever `isAnalyzing` and
`processingStatus` were; both are reset as well. -/
theorem handleDeleteUpload_displayed_shows_history (s : State) (u : JsVal)
    (deleted : AxiosResponse) (history : Reply)
    (hres : s.analysisResults.truthy = true)
    (hid : (s.analysisResults.get "upload_id").strictEq u = true) :
    (handleDeleteUpload u (.ok deleted) history s).state.analysisResults = .null ∧
    (handleDeleteUpload u (.ok deleted) history s).state.showHistory = true ∧
    activeView (handleDeleteUpload u (.ok deleted) history s).state = .history ∧
    (handleDeleteUpload u (.ok deleted) history s).state.isAnalyzing = false ∧
    (handleDeleteUpload u (.ok deleted) history s).state.processingStatus = none := by
  obtain ⟨h, hh⟩ := handleDeleteUpload_displayed s u deleted history hres hid
  simp [hh, activeView]

/-! ## C3 -/

/-- C3 (counterexample): job `u1` is displayed and still processing; after the
successful delete the result is cleared, and a late `processing` reply with a
summary for `u1` stores a partial view again. -/
theorem C3_stray_reply_not_discarded :
    (handleDeleteUpload (.str "u1") deleteAck emptyHistory displayedU1).state.analysisResults
      = .null ∧
    (pollStatus (.str "u1") (.ok ⟨200, partialBodyU1⟩)
      (handleDeleteUpload (.str "u1") deleteAck emptyHistory displayedU1).state).state.analysisResults
      = partialResults partialBodyU1 ∧
    partialResults partialBodyU1 ≠ .null := by
  decide

/-- C3 (amended): after `handleDeleteUpload(u)` has succeeded on the displayed
job `u`, no sequence of later poll replies changes `showHistory` or
`isAnalyzing`: the presented view stays the history list.  The replies are not
discarded: each `completed` reply stores its body in `analysisResults`, each
`processing` reply with a summary stores its partial view, a 404 stores null,
and every other reply leaves `analysisResults` as the replies before it left
it; it is therefore still null as long as no `completed` reply and no
`processing` reply with a summary has arrived. -/
theorem C3_stray_reply_keeps_history_view (s : State) (u : JsVal) (deleted : AxiosResponse)
    (history : Reply) (hres : s.analysisResults.truthy = true)
    (hid : (s.analysisResults.get "upload_id").strictEq u = true) (replies : List Reply) :
    (pollRepliesState u replies
      (handleDeleteUpload u (.ok deleted) history s).state).showHistory = true ∧
    activeView (pollRepliesState u replies
      (handleDeleteUpload u (.ok deleted) history s).state) = .history ∧
    (pollRepliesState u replies
      (handleDeleteUpload u (.ok deleted) history s).state).isAnalyzing = false ∧
    (∀ reply : Reply,
      (pollRepliesState u (replies ++ [reply])
        (handleDeleteUpload u (.ok deleted) history s).state).analysisResults
      = (match reply with
        | .ok response =>
          if (response.data.get "status").strictEq (.str "completed") then response.data
          else if (response.data.get "status").strictEq (.str "processing") &&
              (response.data.get "summary").truthy then partialResults response.data
          else (pollRepliesState u replies
            (handleDeleteUpload u (.ok deleted) history s).state).analysisResults
        | .error e =>
          match e.response with
          | some r =>
            if r.status = 404 then .null
            else (pollRepliesState u replies
              (handleDeleteUpload u (.ok deleted) history s).state).analysisResults
          | none => (pollRepliesState u replies
              (handleDeleteUpload u (.ok deleted) history s).state).analysisResults)) ∧
    ((∀ reply ∈ replies, ∀ response, reply = .ok response →
        (response.data.get "status").strictEq (.str "completed") = false ∧
        ((response.data.get "status").strictEq (.str "processing") &&
          (response.data.get "summary").truthy) = false) →
      (pollRepliesState u replies
        (handleDeleteUpload u (.ok deleted) history s).state).analysisResults = .null) := by
  obtain ⟨h, hh⟩ := handleDeleteUpload_displayed s u deleted history hres hid
  rw [hh]
  have hkeep := pollRepliesState_keeps_history u replies
    { s with analysisResults := .null, isAnalyzing := false, processingStatus := none,
             showHistory := true, uploadHistory := h } rfl rfl
  refine ⟨hkeep.1, by simp [activeView, hkeep.1], hkeep.2, ?_, ?_⟩
  · intro reply
    rw [pollRepliesState_append]
    simp only [pollRepliesState]
    exact pollStatus_analysisResults u reply _
  · intro hall
    exact pollRepliesState_stays_null u replies _ rfl hall

theorem C3_stray_reply_keeps_history_view_witness :
    displayedU1.analysisResults.truthy = true ∧
    (displayedU1.analysisResults.get "upload_id").strictEq (.str "u1") = true ∧
    activeView (pollRepliesState (.str "u1") [.ok ⟨200, partialBodyU1⟩, .ok ⟨200, failedPlain⟩]
      (handleDeleteUpload (.str "u1") (.ok ⟨200, .null⟩) emptyHistory displayedU1).state)
      = .history ∧
    (pollRepliesState (.str "u1") [.ok ⟨200, partialBodyU1⟩, .ok ⟨200, failedPlain⟩]
      (handleDeleteUpload (.str "u1") (.ok ⟨200, .null⟩) emptyHistory displayedU1).state).analysisResults
      = partialResults partialBodyU1 :=
  ⟨by decide, by decide,
    (C3_stray_reply_keeps_history_view displayedU1 (.str "u1") ⟨200, .null⟩ emptyHistory
      (by decide) (by decide) [.ok ⟨200, partialBodyU1⟩, .ok ⟨200, failedPlain⟩]).2.1,
    by decide⟩

/-! ## C4 -/

/-- C4 (counterexample): a second 404 reply for job `u1` raises the error
notification `Upload was deleted` again, so two replies raise it twice. -/
theorem C4_second_404_notifies_again :
    (pollStatus (.str "u1") (notFound .null)
      (pollStatus (.str "u1") (notFound .null) processingU1).state).toasts
      = [⟨.error, .lit "Upload was deleted"⟩] ∧
    ((pollStatus (.str "u1") (notFound .null) processingU1).toasts ++
      (pollStatus (.str "u1") (notFound .null)
        (pollStatus (.str "u1") (notFound .null) processingU1).state).toasts).length = 2 := by
  decide

/-- C4 (amended): the 404 transition is idempotent on the state and not on the
notifications.  A second 404 reply for the same id, and any number of them,
leaves the state of the first; every 404 reply that is applied raises one
`Upload was deleted` error notification and returns `true`, so `n` replies
raise `n` notifications. -/
theorem C4_notFound_idempotent_state (s : State) (uploadId body body2 : JsVal) (n : Nat) :
    (pollStatus uploadId (notFound body2) (pollStatus uploadId (notFound body) s).state).state
      = (pollStatus uploadId (notFound body) s).state ∧
    (pollStatus uploadId (notFound body2) (pollStatus uploadId (notFound body) s).state).toasts
      = [⟨.error, .lit "Upload was deleted"⟩] ∧
    (pollStatus uploadId (notFound body) s).toasts = [⟨.error, .lit "Upload was deleted"⟩] ∧
    (pollStatus uploadId (notFound body) s).value = true ∧
    pollRepliesState uploadId (List.replicate (n + 1) (notFound body)) s
      = (pollStatus uploadId (notFound body) s).state ∧
    ((pollReplies uploadId (List.replicate n (notFound body)) s).map fun r => r.toasts).flatten
      = List.replicate n ⟨.error, .lit "Upload was deleted"⟩ ∧
    ((pollReplies uploadId (List.replicate n (notFound body)) s).map
      fun r => r.toasts).flatten.length = n := by
  refine ⟨by simp [pollStatus_notFound], by simp [pollStatus_notFound],
    by simp [pollStatus_notFound], by simp [pollStatus_notFound],
    pollRepliesState_notFound uploadId body n s,
    pollReplies_notFound_toasts uploadId body n s, ?_⟩
  rw [pollReplies_notFound_toasts uploadId body n s, List.length_replicate]

/-! ## C5 -/

/-- C5 (counterexample): both states are reached from the upload form with
pasted text, the first by a 202 reply with `total_items` 0, the second by a
`processing` status reply without `total_items`.  In both the progress bar is
rendered with `processingStatus = {processed: 0, total: 0}` and the division is
carried out with the divisor 0: its value is `NaN`. -/
theorem C5_division_by_zero_total :
    (handleAnalysis [] (.ok acceptedEmpty) pastedState).state.isAnalyzing = true ∧
    (handleAnalysis [] (.ok acceptedEmpty) pastedState).state.processingStatus
      = some ⟨.num 0, .num 0⟩ ∧
    progressBar (handleAnalysis [] (.ok acceptedEmpty) pastedState).state = some (some .nan) ∧
    (pollStatus (.str "u1") (.ok ⟨200, .obj [("status", .str "processing")]⟩)
      processingU1).state.processingStatus = some ⟨.num 0, .num 0⟩ ∧
    progressBar (pollStatus (.str "u1") (.ok ⟨200, .obj [("status", .str "processing")]⟩)
      processingU1).state = some (some .nan) ∧
    progressFraction ⟨.num 0, .num 0⟩ = some (JsNumber.div (.fin 0) (.fin 0)) ∧
    JsNumber.div (.fin 0) (.fin 0) = .nan := by
  decide

/-- C5 (amended): the progress display is guarded by `isAnalyzing` and by
`processingStatus` being non-null only.  Whenever it is rendered with a
non-null `processingStatus` it computes `processed / total`, whatever `total`
is: for numbers the value is the quotient when `total` is not 0, and `NaN`
(`processed = 0`) or an infinity when `total = 0`; for a missing `total` it is
`NaN`. -/
theorem C5_progress_division_unguarded (s : State) (ps : ProcessingStatus)
    (hview : activeView s = .upload) (han : s.isAnalyzing = true)
    (hps : s.processingStatus = some ps) :
    progressBar s = some (progressPercent ps) ∧
    (∀ p t : ℚ, ps.processed = .num p → ps.total = .num t →
      progressFraction ps = some (JsNumber.div (.fin p) (.fin t)) ∧
      (t ≠ 0 → progressFraction ps = some (.fin (p / t))) ∧
      (t = 0 → progressFraction ps =
        some (if p = 0 then .nan else if 0 < p then .posInf else .negInf))) ∧
    (∀ p : ℚ, ps.processed = .num p → ps.total = .undefined →
      progressFraction ps = some .nan) := by
  refine ⟨?_, ?_, ?_⟩
  · simp [progressBar, progressWidth, hview, han, hps]
  · intro p t hp ht
    refine ⟨?_, ?_, ?_⟩
    · simp [progressFraction, hp, ht, JsVal.toNumber]
    · intro h
      simp [progressFraction, hp, ht, JsVal.toNumber, JsNumber.div, h]
    · intro h
      simp [progressFraction, hp, ht, JsVal.toNumber, JsNumber.div, h]
  · intro p hp ht
    simp [progressFraction, hp, ht, JsVal.toNumber, JsNumber.div]

theorem C5_progress_division_unguarded_witness :
    activeView processingU1 = .upload ∧ processingU1.isAnalyzing = true ∧
    processingU1.processingStatus = some ⟨.num 0, .num 2⟩ ∧
    progressBar processingU1 = some (progressPercent ⟨.num 0, .num 2⟩) :=
  ⟨by decide, by decide, by decide,
    (C5_progress_division_unguarded processingU1 ⟨.num 0, .num 2⟩ (by decide) (by decide)
      (by decide)).1⟩

/-! ## C6 -/

/-- C6 (counterexample): a `processing` status reply with `processed_items` 3
and `total_items` 2 sets `processingStatus = {processed: 3, total: 2}`; in
double arithmetic, whatever the rounding, the fraction is 3/2 and the displayed
percentage 150. -/
theorem C6_fraction_above_one :
    (pollStatus (.str "u1") (.ok ⟨200, overshootBody⟩) processingU1).state.processingStatus
      = some ⟨.num 3, .num 2⟩ ∧
    (∀ R : Rounding,
      progressFractionWith R ⟨.num 3, .num 2⟩ = some (.fin (3 / 2)) ∧
      progressPercentWith R ⟨.num 3, .num 2⟩ = some (.fin 150)) ∧
    ¬ ((3 / 2 : ℚ) ≤ 1) := by
  refine ⟨by decide, ?_, by norm_num⟩
  intro R
  have hb := R.big_pos
  have f3 : R.fl (3 : ℚ) = 3 := by simpa using R.fl_int 3 (by norm_num)
  have f2 : R.fl (2 : ℚ) = 2 := by simpa using R.fl_int 2 (by norm_num)
  have f150 : R.fl (150 : ℚ) = 150 := by simpa using R.fl_int 150 (by norm_num)
  have fh : R.fl (3 / 2 : ℚ) = 3 / 2 := by
    have := R.exact_dyadic 3 1 (by norm_num) (by norm_num)
    simpa using this
  have e3 : R.toDouble 3 = .fin 3 := by
    rw [R.toDouble_of_lt 3 (by norm_num) (by linarith), f3]
  have e2 : R.toDouble 2 = .fin 2 := by
    rw [R.toDouble_of_lt 2 (by norm_num) (by linarith), f2]
  have eh : R.toDouble (3 / 2) = .fin (3 / 2) := by
    rw [R.toDouble_of_lt (3 / 2) (by norm_num) (by linarith), fh]
  have e150 : R.toDouble 150 = .fin 150 := by
    have hlarge : (150 : ℚ) < R.big := lt_of_lt_of_le (by norm_num) R.big_large
    rw [R.toDouble_of_lt 150 (by norm_num) hlarge, f150]
  have hfrac : progressFractionWith R ⟨.num 3, .num 2⟩ = some (.fin (3 / 2)) := by
    simp [progressFractionWith, JsVal.toNumberWith, e3, e2, JsNumber.divWith, eh]
  refine ⟨hfrac, ?_⟩
  have hmul : (3 / 2 : ℚ) * 100 = 150 := by norm_num
  simp only [progressPercentWith, hfrac, Option.map_some', JsNumber.mulWith, hmul, e150,
    JsNumber.round]
  norm_num

/-- C6 (amended): when a status reply reports finite doubles with
`total_items > 0` and `0 ≤ processed_items ≤ total_items` (a missing
`processed_items` counts as 0), the `processingStatus` that `pollStatus` leaves
is null (job finished) or `{processed_items, total_items}`; in double
arithmetic, whatever the rounding, its fraction lies in [0,1] and its
percentage lies between 0 and 100.  After a 202 reply with such a
`total_items` the fraction and the percentage are 0. -/
theorem C6_fraction_within_unit_interval (R : Rounding) (s : State) (uploadId : JsVal)
    (response : AxiosResponse) (p t : ℚ) (ht : 0 < t) (hp : 0 ≤ p) (hpt : p ≤ t)
    (hdp : R.fl p = p) (hdt : R.fl t = t) (hfin : t < R.big)
    (htotal : response.data.get "total_items" = .num t)
    (hprocessed : (response.data.get "processed_items").or (.num 0) = .num p) :
    ((pollStatus uploadId (.ok response) s).state.processingStatus = none ∨
      (pollStatus uploadId (.ok response) s).state.processingStatus = some ⟨.num p, .num t⟩) ∧
    progressFractionWith R ⟨.num p, .num t⟩ = some (.fin (R.fl (p / t))) ∧
    0 ≤ R.fl (p / t) ∧ R.fl (p / t) ≤ 1 ∧
    progressPercentWith R ⟨.num p, .num t⟩
      = some (.fin ((⌊R.fl (R.fl (p / t) * 100) + 1 / 2⌋ : ℤ) : ℚ)) ∧
    (0 : ℚ) ≤ ((⌊R.fl (R.fl (p / t) * 100) + 1 / 2⌋ : ℤ) : ℚ) ∧
    ((⌊R.fl (R.fl (p / t) * 100) + 1 / 2⌋ : ℤ) : ℚ) ≤ 100 ∧
    (∀ (events : List ProgressEvent) (accepted : AxiosResponse) (s0 : State)
      (fileContent filename : String), payload s0 = some (fileContent, filename) →
      accepted.status = 202 → accepted.data.get "total_items" = .num t →
      (handleAnalysis events (.ok accepted) s0).state.processingStatus
        = some ⟨.num 0, .num t⟩ ∧
      progressFractionWith R ⟨.num 0, .num t⟩ = some (.fin 0) ∧
      progressPercentWith R ⟨.num 0, .num t⟩ = some (.fin 0)) := by
  have ht0 : t ≠ 0 := ht.ne'
  have hq0 : 0 ≤ p / t := div_nonneg hp ht.le
  have hq1 : p / t ≤ 1 := (div_le_one ht).2 hpt
  have hf := R.fl_unit (p / t) hq0 hq1
  have hx := R.fl_percent (R.fl (p / t) * 100) (by nlinarith [hf.1]) (by nlinarith [hf.2])
  have hr := round_percent_bounds (R.fl (R.fl (p / t) * 100)) hx.1 hx.2
  have hmain := progressWith_of_le R p t ht hp hpt hdp hdt hfin
  have hn : response.data.isNullish = false :=
    JsVal.isNullish_of_get _ "total_items" (by rw [htotal]; simp)
  have htot : (response.data.get "total_items").or (.num 0) = .num t := by
    simp [htotal, JsVal.or, JsVal.truthy, ht0]
  refine ⟨?_, hmain.1, hf.1, hf.2, hmain.2, hr.1, hr.2, ?_⟩
  · by_cases h2 : (response.data.get "status").strictEq (.str "completed") = true <;>
    by_cases h3 : (response.data.get "status").strictEq (.str "failed") = true <;>
    by_cases h4 : ((response.data.get "status").strictEq (.str "processing") &&
        (response.data.get "summary").truthy) = true <;>
    simp [pollStatus, hn, h2, h3, h4, htot, hprocessed]
  · intro events accepted s0 fileContent filename hpay h202 hacc
    have hn2 : accepted.data.isNullish = false :=
      JsVal.isNullish_of_get _ "total_items" (by rw [hacc]; simp)
    obtain ⟨u, hu⟩ := submit_accepted fileContent filename events accepted s0 h202 hn2
    rw [handleAnalysis_of_payload events _ s0 fileContent filename hpay, hu]
    have z : R.fl (0 : ℚ) = 0 := by simpa using R.fl_int 0 (by norm_num)
    have hzero := progressWith_of_le R 0 t ht le_rfl ht.le z hdt hfin
    refine ⟨by simp [hacc], ?_, ?_⟩
    · rw [hzero.1]
      simp [z]
    · rw [hzero.2]
      simp [z]
      norm_num

theorem C6_fraction_within_unit_interval_witness :
    (0 : ℚ) < 2 ∧ (0 : ℚ) ≤ 1 ∧ (1 : ℚ) ≤ 2 ∧
    Rounding.exact.fl 1 = 1 ∧ Rounding.exact.fl 2 = 2 ∧ (2 : ℚ) < Rounding.exact.big ∧
    partialBody.get "total_items" = .num 2 ∧
    (partialBody.get "processed_items").or (.num 0) = .num 1 ∧
    progressPercentWith Rounding.exact ⟨.num 1, .num 2⟩
      = some (.fin ((⌊Rounding.exact.fl (Rounding.exact.fl ((1 : ℚ) / 2) * 100) + 1 / 2⌋ : ℤ) : ℚ)) ∧
    ((⌊Rounding.exact.fl (Rounding.exact.fl ((1 : ℚ) / 2) * 100) + 1 / 2⌋ : ℤ) : ℚ) ≤ 100 :=
  have hbig : (2 : ℚ) < Rounding.exact.big := by
    simp only [Rounding.exact]
    norm_num
  have h := C6_fraction_within_unit_interval Rounding.exact processingU1 (.str "u1")
    ⟨200, partialBody⟩ 1 2 (by norm_num) (by norm_num) (by norm_num) rfl rfl hbig
    (by decide) (by decide)
  ⟨by norm_num, by norm_num, by norm_num, rfl, rfl, hbig, by decide, by decide,
    h.2.2.2.2.1, h.2.2.2.2.2.2.1⟩

/-! ## C7 -/

/-- C7: for a submission that passes the checks of `handleAnalysis` and is
answered with status 202 and a body, the handler leaves `uploadId = upload_id`,
`processingStatus = {processed: 0, total: total_items}` and `isAnalyzing = true`,
issues the POST only, raises the `Processing ... items...` notification and
starts the poll interval bound to `upload_id`. -/
theorem C7_accepted_enters_processing (s : State) (events : List ProgressEvent)
    (response : AxiosResponse) (fileContent filename : String)
    (hvalid : payload s = some (fileContent, filename)) (h202 : response.status = 202)
    (hbody : response.data.isNullish = false) :
    (handleAnalysis events (.ok response) s).state.uploadId = response.data.get "upload_id" ∧
    (handleAnalysis events (.ok response) s).state.processingStatus
      = some ⟨.num 0, response.data.get "total_items"⟩ ∧
    (handleAnalysis events (.ok response) s).state.isAnalyzing = true ∧
    (handleAnalysis events (.ok response) s).value = some (response.data.get "upload_id") ∧
    (handleAnalysis events (.ok response) s).state.analysisResults = s.analysisResults ∧
    (handleAnalysis events (.ok response) s).toasts
      = [⟨.success, .template "Processing " (response.data.get "total_items") " items..."⟩] ∧
    (handleAnalysis events (.ok response) s).requests = [.postUpload (.obj
      [("file", .str fileContent), ("filename", .str filename),
       ("upload_name", (JsVal.str (jsTrim s.uploadName)).or .null)])] := by
  obtain ⟨u, hu⟩ := submit_accepted fileContent filename events response s h202 hbody
  rw [handleAnalysis_of_payload events _ s fileContent filename hvalid, hu]
  simp

theorem C7_accepted_enters_processing_witness :
    payload pastedState = some ("a,b\n1,2", "pasted-data.csv") ∧
    acceptedU1.status = 202 ∧
    (handleAnalysis [] (.ok acceptedU1) pastedState).state.uploadId = .str "u1" ∧
    (handleAnalysis [] (.ok acceptedU1) pastedState).state.processingStatus
      = some ⟨.num 0, .num 2⟩ ∧
    (handleAnalysis [] (.ok acceptedU1) pastedState).state.isAnalyzing = true ∧
    (handleAnalysis [] (.ok acceptedU1) pastedState).value = some (.str "u1") :=
  have h := C7_accepted_enters_processing pastedState [] acceptedU1 "a,b\n1,2"
    "pasted-data.csv" (by decide) (by decide) (by decide)
  ⟨by decide, by decide, h.1, h.2.1, h.2.2.1, h.2.2.2.1⟩

/-! ## C8 -/

/-- C8: for a submission that passes the checks of `handleAnalysis` and is
answered successfully with a status other than 202, the handler stores the
response body in `analysisResults`, sets `isAnalyzing = false`, raises one
success notification, issues the POST only and starts no poll interval. -/
theorem C8_synchronous_completion (s : State) (events : List ProgressEvent)
    (response : AxiosResponse) (fileContent filename : String)
    (hvalid : payload s = some (fileContent, filename)) (h202 : response.status ≠ 202) :
    (handleAnalysis events (.ok response) s).state.analysisResults = response.data ∧
    (handleAnalysis events (.ok response) s).state.isAnalyzing = false ∧
    (handleAnalysis events (.ok response) s).value = none ∧
    (handleAnalysis events (.ok response) s).state.uploadId = s.uploadId ∧
    (handleAnalysis events (.ok response) s).toasts
      = [⟨.success, .lit "Analysis completed successfully!"⟩] ∧
    (handleAnalysis events (.ok response) s).requests = [.postUpload (.obj
      [("file", .str fileContent), ("filename", .str filename),
       ("upload_name", (JsVal.str (jsTrim s.uploadName)).or .null)])] := by
  obtain ⟨u, hu⟩ := submit_synchronous fileContent filename events response s h202
  rw [handleAnalysis_of_payload events _ s fileContent filename hvalid, hu]
  simp

theorem C8_synchronous_completion_witness :
    payload pastedState = some ("a,b\n1,2", "pasted-data.csv") ∧
    (200 : Nat) ≠ 202 ∧
    (handleAnalysis [] (.ok ⟨200, completedU1⟩) pastedState).state.analysisResults
      = completedU1 ∧
    (handleAnalysis [] (.ok ⟨200, completedU1⟩) pastedState).state.isAnalyzing = false ∧
    (handleAnalysis [] (.ok ⟨200, completedU1⟩) pastedState).value = none :=
  have h := C8_synchronous_completion pastedState [] ⟨200, completedU1⟩ "a,b\n1,2"
    "pasted-data.csv" (by decide) (by decide)
  ⟨by decide, by decide, h.1, h.2.1, h.2.2.1⟩

/-! ## C9 -/

/-- C9: for a status reply with status `processing` and a summary, `pollStatus`
stores in `analysisResults` the body with `items = []` and with the summary
extended by `partial = true`, `totalItems = total_items` and
`processedItems = processed_items` (every other key of the body and of its
summary is kept), stores `{processed_items || 0, total_items || 0}` in
`processingStatus`, raises no notification and returns `false`. -/
theorem C9_processing_stores_partial_view (s : State) (uploadId : JsVal)
    (response : AxiosResponse)
    (hstatus : (response.data.get "status").strictEq (.str "processing") = true)
    (hsummary : (response.data.get "summary").truthy = true) :
    (pollStatus uploadId (.ok response) s).state.analysisResults.get "items" = .arr [] ∧
    ((pollStatus uploadId (.ok response) s).state.analysisResults.get "summary").get "partial"
      = .bool true ∧
    ((pollStatus uploadId (.ok response) s).state.analysisResults.get "summary").get "totalItems"
      = response.data.get "total_items" ∧
    ((pollStatus uploadId (.ok response) s).state.analysisResults.get "summary").get
      "processedItems" = response.data.get "processed_items" ∧
    (∀ k : String, k ≠ "partial" → k ≠ "totalItems" → k ≠ "processedItems" →
      ((pollStatus uploadId (.ok response) s).state.analysisResults.get "summary").get k
        = (response.data.get "summary").get k) ∧
    (∀ k : String, k ≠ "items" → k ≠ "summary" →
      (pollStatus uploadId (.ok response) s).state.analysisResults.get k
        = response.data.get k) ∧
    (pollStatus uploadId (.ok response) s).state.processingStatus
      = some ⟨(response.data.get "processed_items").or (.num 0),
              (response.data.get "total_items").or (.num 0)⟩ ∧
    (pollStatus uploadId (.ok response) s).toasts = [] ∧
    (pollStatus uploadId (.ok response) s).value = false ∧
    (pollStatus uploadId (.ok response) s).state.isAnalyzing = s.isAnalyzing ∧
    (pollStatus uploadId (.ok response) s).state.showHistory = s.showHistory := by
  rw [pollStatus_processing_summary uploadId response s hstatus hsummary]
  have hsum : (partialResults response.data).get "summary" = .obj
      (JsVal.setField "partial" (.bool true)
        (JsVal.setField "processedItems" (response.data.get "processed_items")
          (JsVal.setField "totalItems" (response.data.get "total_items")
            (response.data.get "summary").ownProps))) := by
    simp only [partialResults, JsVal.get, JsVal.ownProps]
    rw [JsVal.lookup_setField_same]
  refine ⟨?_, ?_, ?_, ?_, ?_, ?_, rfl, rfl, rfl, rfl, rfl⟩
  · simp only [partialResults, JsVal.get, JsVal.ownProps]
    rw [JsVal.lookup_setField_other _ _ _ _ (by decide), JsVal.lookup_setField_same]
  · simp only [hsum]
    simp only [JsVal.get, JsVal.ownProps]
    rw [JsVal.lookup_setField_same]
  · simp only [hsum]
    simp only [JsVal.get, JsVal.ownProps]
    rw [JsVal.lookup_setField_other _ _ _ _ (by decide),
      JsVal.lookup_setField_other _ _ _ _ (by decide), JsVal.lookup_setField_same]
  · simp only [hsum]
    simp only [JsVal.get, JsVal.ownProps]
    rw [JsVal.lookup_setField_other _ _ _ _ (by decide), JsVal.lookup_setField_same]
  · intro k h1 h2 h3
    simp only [hsum]
    simp only [JsVal.get, JsVal.ownProps]
    rw [JsVal.lookup_setField_other _ _ _ _ h1, JsVal.lookup_setField_other _ _ _ _ h3,
      JsVal.lookup_setField_other _ _ _ _ h2]
  · intro k h1 h2
    simp only [partialResults, JsVal.get, JsVal.ownProps]
    rw [JsVal.lookup_setField_other _ _ _ _ h2, JsVal.lookup_setField_other _ _ _ _ h1]

theorem C9_processing_stores_partial_view_witness :
    (partialBody.get "status").strictEq (.str "processing") = true ∧
    (partialBody.get "summary").truthy = true ∧
    (pollStatus (.str "u1") (.ok ⟨200, partialBody⟩) processingU1).state.analysisResults.get
      "items" = .arr [] ∧
    (pollStatus (.str "u1") (.ok ⟨200, partialBody⟩) processingU1).value = false :=
  have h := C9_processing_stores_partial_view processingU1 (.str "u1") ⟨200, partialBody⟩
    (by decide) (by decide)
  ⟨by decide, by decide, h.1, h.2.2.2.2.2.2.2.2.1⟩

/-! ## C10 -/

/-- C10 (counterexample): the replies are one `processing` reply followed by a
`completed` reply whose `items` is empty; after the final tick `analysisResults`
has empty `items`. -/
theorem C10_completed_with_empty_items :
    (partialBodyU1.get "status").strictEq (.str "processing") = true ∧
    (completedEmpty.get "status").strictEq (.str "completed") = true ∧
    (pollState (.str "u1") [.ok ⟨200, partialBodyU1⟩, .ok ⟨200, completedEmpty⟩]
      processingU1).analysisResults.get "items" = .arr [] := by
  decide

/-- C10 (amended): for replies that are `processing` replies followed by one
`completed` reply, the interval runs every tick; each `processing` tick leaves
`analysisResults` unchanged or with `items = []`; after the final tick
`analysisResults` is the body of the `completed` reply as received, so its
`items` and `summary.partial` are those of that body. -/
theorem C10_items_only_from_completed (s : State) (uploadId : JsVal)
    (processing : List AxiosResponse) (completed : AxiosResponse)
    (hprocessing : ∀ r ∈ processing, (r.data.get "status").strictEq (.str "processing") = true)
    (hcompleted : (completed.data.get "status").strictEq (.str "completed") = true) :
    (∀ (before after : List AxiosResponse) (r : AxiosResponse),
      processing = before ++ r :: after →
      (pollStatus uploadId (.ok r)
          (pollState uploadId (before.map .ok) s)).state.analysisResults
        = (pollState uploadId (before.map .ok) s).analysisResults ∨
      (pollStatus uploadId (.ok r)
          (pollState uploadId (before.map .ok) s)).state.analysisResults.get "items"
        = .arr []) ∧
    (pollInterval uploadId ((processing ++ [completed]).map .ok) s).length
      = processing.length + 1 ∧
    (pollState uploadId ((processing ++ [completed]).map .ok) s).analysisResults
      = completed.data ∧
    (pollState uploadId ((processing ++ [completed]).map .ok) s).analysisResults.get "items"
      = completed.data.get "items" ∧
    ((pollState uploadId ((processing ++ [completed]).map .ok) s).analysisResults.get
      "summary").get "partial" = (completed.data.get "summary").get "partial" := by
  have hfinal : (pollState uploadId ((processing ++ [completed]).map .ok) s).analysisResults
      = completed.data := by
    rw [List.map_append, pollState_append uploadId processing _ s hprocessing]
    simp [pollState, pollStatus_completed uploadId completed _ hcompleted]
  refine ⟨?_, pollInterval_length uploadId processing completed s hprocessing, hfinal, ?_, ?_⟩
  · intro before after r hsplit
    exact (pollStatus_processing_value uploadId r _
      (hprocessing r (by rw [hsplit]; simp))).2
  · rw [hfinal]
  · rw [hfinal]

theorem C10_items_only_from_completed_witness :
    (∀ r ∈ [(⟨200, partialBodyU1⟩ : AxiosResponse)],
      (r.data.get "status").strictEq (.str "processing") = true) ∧
    (completedU1.get "status").strictEq (.str "completed") = true ∧
    (pollState (.str "u1")
      (([(⟨200, partialBodyU1⟩ : AxiosResponse)] ++ [(⟨200, completedU1⟩ : AxiosResponse)]).map .ok)
      processingU1).analysisResults = completedU1 :=
  ⟨by decide, by decide,
    (C10_items_only_from_completed processingU1 (.str "u1")
      [(⟨200, partialBodyU1⟩ : AxiosResponse)] (⟨200, completedU1⟩ : AxiosResponse)
      (by decide) (by decide)).2.2.1⟩

/-! ## C11 -/

/-- C11: for every status reply with status `completed`, `pollStatus` stores the
body as received in `analysisResults` (whatever the earlier value was), sets
`isAnalyzing = false` and `processingStatus = null`, leaves every other state
variable, raises exactly one success notification and returns `true`; the
interval callback then runs no further tick. -/
theorem C11_completed_stores_body (s : State) (uploadId : JsVal) (response : AxiosResponse)
    (rest : List Reply)
    (hstatus : (response.data.get "status").strictEq (.str "completed") = true) :
    (pollStatus uploadId (.ok response) s).state.analysisResults = response.data ∧
    (pollStatus uploadId (.ok response) s).state.isAnalyzing = false ∧
    (pollStatus uploadId (.ok response) s).state.processingStatus = none ∧
    (pollStatus uploadId (.ok response) s).state
      = { s with analysisResults := response.data, isAnalyzing := false,
                 processingStatus := none } ∧
    (pollStatus uploadId (.ok response) s).toasts
      = [⟨.success, .lit "Analysis completed successfully!"⟩] ∧
    (pollStatus uploadId (.ok response) s).value = true ∧
    pollInterval uploadId (.ok response :: rest) s = [pollStatus uploadId (.ok response) s] ∧
    pollState uploadId (.ok response :: rest) s = (pollStatus uploadId (.ok response) s).state := by
  have h := pollStatus_completed uploadId response s hstatus
  refine ⟨by rw [h], by rw [h], by rw [h], by rw [h], by rw [h], by rw [h], ?_, ?_⟩
  · simp [pollInterval, h]
  · simp [pollState, h]

theorem C11_completed_stores_body_witness :
    (completedU1.get "status").strictEq (.str "completed") = true ∧
    displayedU1.analysisResults = partialResults partialBodyU1 ∧
    (pollStatus (.str "u1") (.ok ⟨200, completedU1⟩) displayedU1).state.analysisResults
      = completedU1 ∧
    (pollStatus (.str "u1") (.ok ⟨200, completedU1⟩) displayedU1).value = true :=
  have h := C11_completed_stores_body displayedU1 (.str "u1") ⟨200, completedU1⟩ []
    (by decide)
  ⟨by decide, by decide, h.1, h.2.2.2.2.2.1⟩

/-! ## C12 -/

/-- C12: for every status reply with status `failed`, `pollStatus` sets
`isAnalyzing = false` and `processingStatus = null`, returns `true` and raises
exactly one error notification; its message is the `error_message` of the
reply when that is present (truthy) and `Processing failed` when it is absent
(undefined, null or empty). -/
theorem C12_failed_notifies_error (s : State) (uploadId : JsVal) (response : AxiosResponse)
    (hstatus : (response.data.get "status").strictEq (.str "failed") = true) :
    (pollStatus uploadId (.ok response) s).state.isAnalyzing = false ∧
    (pollStatus uploadId (.ok response) s).state.processingStatus = none ∧
    (pollStatus uploadId (.ok response) s).value = true ∧
    (∃ m, (pollStatus uploadId (.ok response) s).toasts = [⟨.error, .value m⟩] ∧
      ((response.data.get "error_message").truthy = true →
        m = response.data.get "error_message") ∧
      ((response.data.get "error_message").truthy = false → m = .str "Processing failed") ∧
      (response.data.get "error_message" = .undefined → m = .str "Processing failed")) := by
  have h := pollStatus_failed uploadId response s hstatus
  refine ⟨by rw [h], by rw [h], by rw [h],
    (response.data.get "error_message").or (.str "Processing failed"), by rw [h], ?_, ?_, ?_⟩
  · intro ht
    exact JsVal.or_eq_of_truthy _ _ ht
  · intro hf
    exact JsVal.or_eq_of_not_truthy _ _ hf
  · intro hu
    rw [hu]
    rfl

theorem C12_failed_notifies_error_witness :
    (failedWithMessage.get "status").strictEq (.str "failed") = true ∧
    (pollStatus (.str "u1") (.ok ⟨200, failedWithMessage⟩) processingU1).state.isAnalyzing
      = false ∧
    (pollStatus (.str "u1") (.ok ⟨200, failedWithMessage⟩) processingU1).value = true ∧
    (pollStatus (.str "u1") (.ok ⟨200, failedWithMessage⟩) processingU1).toasts
      = [⟨.error, .value (.str "Bad header row")⟩] ∧
    (pollStatus (.str "u1") (.ok ⟨200, failedPlain⟩) processingU1).toasts
      = [⟨.error, .value (.str "Processing failed")⟩] :=
  have h := C12_failed_notifies_error processingU1 (.str "u1") ⟨200, failedWithMessage⟩
    (by decide)
  ⟨by decide, h.1, h.2.2.1, by decide, by decide⟩

/-! ## C13 -/

/-- C13 (counterexample): a `failed` reply whose `error_message` is the string
`Upload was deleted` raises an error notification with the very message of
the 404 notification. -/
theorem C13_failed_message_can_coincide :
    (failedAsDeleted.get "status").strictEq (.str "failed") = true ∧
    (pollStatus (.str "u1") (.ok ⟨200, failedAsDeleted⟩) processingU1).toasts.map
      (fun t => (t.kind, t.message.argument))
      = [(.error, some (.str "Upload was deleted"))] ∧
    (pollStatus (.str "u1") (notFound .null) processingU1).toasts.map
      (fun t => (t.kind, t.message.argument))
      = [(.error, some (.str "Upload was deleted"))] := by
  decide

/-- C13 (amended): for every prior state, a status request that fails with HTTP
404 makes `pollStatus` set `analysisResults = null`, `processingStatus = null`,
`isAnalyzing = false` and `showHistory = true`, so that the presented view is
the history list, return `true` and raise one error notification,
`Upload was deleted`.  That message differs from the generic
`Processing failed`, and it equals the message raised for a `failed` reply
exactly when the `error_message` of that reply is the string
`Upload was deleted`. -/
theorem C13_notFound_clears_and_shows_history (s : State) (uploadId body : JsVal) :
    (pollStatus uploadId (notFound body) s).state.analysisResults = .null ∧
    (pollStatus uploadId (notFound body) s).state.processingStatus = none ∧
    (pollStatus uploadId (notFound body) s).state.isAnalyzing = false ∧
    (pollStatus uploadId (notFound body) s).state.showHistory = true ∧
    activeView (pollStatus uploadId (notFound body) s).state = .history ∧
    (pollStatus uploadId (notFound body) s).value = true ∧
    (pollStatus uploadId (notFound body) s).toasts = [⟨.error, .lit "Upload was deleted"⟩] ∧
    (ToastMessage.lit "Upload was deleted").argument
      ≠ (ToastMessage.value (.str "Processing failed")).argument ∧
    (∀ (s2 : State) (response : AxiosResponse),
      (response.data.get "status").strictEq (.str "failed") = true →
      ((pollStatus uploadId (.ok response) s2).toasts.map (fun t => t.message.argument)
          = (pollStatus uploadId (notFound body) s).toasts.map (fun t => t.message.argument)
        ↔ response.data.get "error_message" = .str "Upload was deleted")) := by
  rw [pollStatus_notFound]
  refine ⟨rfl, rfl, rfl, rfl, by simp [activeView], rfl, rfl, by decide, ?_⟩
  intro s2 response hfailed
  rw [pollStatus_failed uploadId response s2 hfailed]
  simp only [List.map_cons, List.map_nil, ToastMessage.argument, List.cons.injEq, and_true,
    Option.some.injEq]
  constructor
  · intro h
    by_cases ht : (response.data.get "error_message").truthy = true
    · rwa [JsVal.or_eq_of_truthy _ _ ht] at h
    · rw [JsVal.or_eq_of_not_truthy _ _ (by simpa using ht)] at h
      exact absurd h (by decide)
  · intro h
    rw [h]
    decide

theorem C13_notFound_clears_and_shows_history_witness :
    (failedPlain.get "status").strictEq (.str "failed") = true ∧
    activeView (pollStatus (.str "u1") (notFound .null) displayedU1).state = .history ∧
    (pollStatus (.str "u1") (notFound .null) displayedU1).state.analysisResults = .null ∧
    ((pollStatus (.str "u1") (.ok ⟨200, failedPlain⟩) processingU1).toasts.map
        (fun t => t.message.argument)
        = (pollStatus (.str "u1") (notFound .null) displayedU1).toasts.map
          (fun t => t.message.argument)
      ↔ failedPlain.get "error_message" = .str "Upload was deleted") :=
  have h := C13_notFound_clears_and_shows_history displayedU1 (.str "u1") .null
  ⟨by decide, h.2.2.2.2.1, h.1,
    h.2.2.2.2.2.2.2.2 processingU1 ⟨200, failedPlain⟩ (by decide)⟩

/-! ## C14 -/

/-- C14: for every failure of the status request that is not an HTTP 404 (no
response, or a response with another status), `pollStatus` leaves the whole
state unchanged, raises no notification and returns `false`; however many such
failures follow each other, the interval callback runs every tick. -/
theorem C14_other_failure_keeps_polling (s : State) (uploadId : JsVal) (e : Thrown)
    (hother : ∀ r, e.response = some r → r.status ≠ 404) :
    (pollStatus uploadId (.error e) s).state = s ∧
    (pollStatus uploadId (.error e) s).toasts = [] ∧
    (pollStatus uploadId (.error e) s).value = false ∧
    (pollStatus uploadId (.error e) s).requests = [.getStatus uploadId] ∧
    (∀ n : Nat, (pollInterval uploadId (List.replicate n (.error e)) s).length = n ∧
      pollState uploadId (List.replicate n (.error e)) s = s) := by
  have h := pollStatus_error_other uploadId e s hother
  refine ⟨by rw [h], by rw [h], by rw [h], by rw [h], ?_⟩
  intro n
  induction n with
  | zero => exact ⟨rfl, rfl⟩
  | succ k ih =>
    simp only [List.replicate_succ, pollInterval, pollState, h]
    simp only [Bool.false_eq_true, if_false, List.length_cons]
    exact ⟨congrArg (· + 1) ih.1, ih.2⟩

theorem C14_other_failure_keeps_polling_witness :
    (∀ r, (⟨some ⟨503, .null⟩⟩ : Thrown).response = some r → r.status ≠ 404) ∧
    (pollStatus (.str "u1") (.error ⟨some ⟨503, .null⟩⟩) displayedU1).state = displayedU1 ∧
    (pollStatus (.str "u1") (.error ⟨some ⟨503, .null⟩⟩) displayedU1).value = false :=
  have hother : ∀ r, (⟨some ⟨503, .null⟩⟩ : Thrown).response = some r → r.status ≠ 404 := by
    intro r hr
    cases hr
    decide
  have h := C14_other_failure_keeps_polling displayedU1 (.str "u1") ⟨some ⟨503, .null⟩⟩ hother
  ⟨hother, h.1, h.2.2.1⟩

/-! ## C15 -/

/-- C15: `pollStatus` returns `true` exactly when the tick is terminal: the
reply has status `completed` or `failed`, or the request failed with HTTP 404.
For every other outcome (status `processing`, another status, a body without
status, any other failure) it returns `false`. -/
theorem C15_stops_iff_terminal (s : State) (uploadId : JsVal) :
    (∀ response : AxiosResponse,
      (pollStatus uploadId (.ok response) s).value = true ↔
        (response.data.get "status" = .str "completed" ∨
          response.data.get "status" = .str "failed")) ∧
    (∀ e : Thrown,
      (pollStatus uploadId (.error e) s).value = true ↔
        ∃ r, e.response = some r ∧ r.status = 404) := by
  constructor
  · intro response
    by_cases h1 : response.data.isNullish = true
    · have hu := JsVal.get_of_isNullish response.data "status" h1
      simp [pollStatus, pollStatusCatch, typeError, h1, hu]
    · by_cases h2 : (response.data.get "status").strictEq (.str "completed") = true
      · have := (JsVal.strictEq_str _ _).1 h2
        rw [pollStatus_completed uploadId response s h2]
        simp [this]
      · by_cases h3 : (response.data.get "status").strictEq (.str "failed") = true
        · have := (JsVal.strictEq_str _ _).1 h3
          rw [pollStatus_failed uploadId response s h3]
          simp [this]
        · have n2 : response.data.get "status" ≠ .str "completed" :=
            fun h => h2 ((JsVal.strictEq_str _ _).2 h)
          have n3 : response.data.get "status" ≠ .str "failed" :=
            fun h => h3 ((JsVal.strictEq_str _ _).2 h)
          simp [pollStatus, h1, h2, h3, n2, n3]
  · intro e
    obtain ⟨r⟩ := e
    cases r with
    | none => simp [pollStatus, pollStatusCatch]
    | some r => by_cases h : r.status = 404 <;> simp [pollStatus, pollStatusCatch, h]

theorem C15_stops_iff_terminal_witness :
    (pollStatus (.str "u1") (.ok ⟨200, partialBody⟩) processingU1).value = false ∧
    (pollStatus (.str "u1") (.ok ⟨200, completedU1⟩) processingU1).value = true ∧
    (pollStatus (.str "u1") (notFound .null) processingU1).value = true :=
  have h := C15_stops_iff_terminal processingU1 (.str "u1")
  ⟨by
      cases hv : (pollStatus (.str "u1") (.ok ⟨200, partialBody⟩) processingU1).value
      · rfl
      · exact absurd ((h.1 ⟨200, partialBody⟩).1 hv) (by decide),
    (h.1 ⟨200, completedU1⟩).2 (Or.inl (by decide)),
    (h.2 ⟨some ⟨404, .null⟩⟩).2 ⟨⟨404, .null⟩, rfl, rfl⟩⟩

/-! ## C16 -/

/-- C16 (counterexample): job `u1` is being analysed (`isAnalyzing = true`) and
the history list is open; a `handleSelectUpload` whose status fetch fails leaves
`isAnalyzing = false`. -/
theorem C16_failed_select_resets_isAnalyzing :
    historyOpenU1.isAnalyzing = true ∧
    (handleSelectUpload (.str "u0") (.error ⟨none⟩) historyOpenU1).state.isAnalyzing = false := by
  decide

/-- C16 (amended): when the status fetch of `handleSelectUpload` fails,
`analysisResults`, `showHistory`, `mode`, `processingStatus` and with them the
presented view are unchanged, for every prior state; `isAnalyzing` is `false`
afterwards, so the whole state is unchanged exactly when `isAnalyzing` was
`false` before.  One error notification is raised. -/
theorem C16_failed_select_keeps_view (s : State) (uploadId : JsVal) (e : Thrown) :
    (handleSelectUpload uploadId (.error e) s).state.analysisResults = s.analysisResults ∧
    (handleSelectUpload uploadId (.error e) s).state.showHistory = s.showHistory ∧
    (handleSelectUpload uploadId (.error e) s).state.mode = s.mode ∧
    (handleSelectUpload uploadId (.error e) s).state.processingStatus = s.processingStatus ∧
    activeView (handleSelectUpload uploadId (.error e) s).state = activeView s ∧
    (handleSelectUpload uploadId (.error e) s).state.isAnalyzing = false ∧
    (handleSelectUpload uploadId (.error e) s).state = { s with isAnalyzing := false } ∧
    ((handleSelectUpload uploadId (.error e) s).state = s ↔ s.isAnalyzing = false) ∧
    (handleSelectUpload uploadId (.error e) s).toasts
      = [⟨.error, .lit "Failed to load analysis"⟩] := by
  rw [handleSelectUpload_error]
  refine ⟨rfl, rfl, rfl, rfl, rfl, rfl, rfl, ?_, rfl⟩
  constructor
  · intro h
    have := congrArg State.isAnalyzing h
    exact this.symm
  · intro h
    cases s
    simp_all

theorem C16_failed_select_keeps_view_witness :
    (handleSelectUpload (.str "u0") (.error ⟨none⟩) historyOpenU1).state.analysisResults
      = historyOpenU1.analysisResults ∧
    activeView (handleSelectUpload (.str "u0") (.error ⟨none⟩) historyOpenU1).state
      = .history :=
  have h := C16_failed_select_keeps_view historyOpenU1 (.str "u0") ⟨none⟩
  ⟨h.1, h.2.2.2.2.1.trans (by decide)⟩

/-! ## C17 -/

/-- C17 (failing input): in single-item mode with the history list open, a
successful `handleSelectUpload` stores the fetched body and closes the history
list but leaves `mode`, so the rendered branch is the single-item checker and
not the results view. -/
theorem C17_select_in_single_item_mode :
    activeView singleItemHistory = .history ∧
    (handleSelectUpload (.str "u1") (.ok ⟨200, completedU1⟩) singleItemHistory).state.analysisResults
      = completedU1 ∧
    (handleSelectUpload (.str "u1") (.ok ⟨200, completedU1⟩) singleItemHistory).state.showHistory
      = false ∧
    (handleSelectUpload (.str "u1") (.ok ⟨200, completedU1⟩) singleItemHistory).state.mode
      = .singleItem ∧
    (handleSelectUpload (.str "u1") (.ok ⟨200, completedU1⟩) singleItemHistory).toasts
      = [⟨.success, .lit "Analysis loaded!"⟩] ∧
    activeView (handleSelectUpload (.str "u1") (.ok ⟨200, completedU1⟩) singleItemHistory).state
      = .singleItem := by
  decide

/-! ## C18 -/

/-- C18: clicking the row of a history entry calls `onSelectUpload` exactly
when the status of the entry is `completed`, and then with the `upload_id` of
the entry; a row whose status is `processing`, `failed` or anything else calls
nothing. -/
theorem C18_row_selectable_iff_completed (upload : JsVal) :
    ((rowClick upload).isSome = true ↔ upload.get "status" = .str "completed") ∧
    (upload.get "status" = .str "completed" → rowClick upload = some (upload.get "upload_id")) ∧
    (upload.get "status" ≠ .str "completed" → rowClick upload = none) ∧
    (upload.get "status" = .str "processing" → rowClick upload = none) ∧
    (upload.get "status" = .str "failed" → rowClick upload = none) := by
  have hc : upload.get "status" = .str "completed" → rowClick upload = some (upload.get "upload_id") := by
    intro h
    simp [rowClick, h, JsVal.strictEq]
  have hn : upload.get "status" ≠ .str "completed" → rowClick upload = none := by
    intro h
    have : (upload.get "status").strictEq (.str "completed") = false := by
      cases hs : (upload.get "status").strictEq (.str "completed")
      · rfl
      · exact absurd ((JsVal.strictEq_str _ _).1 hs) h
    simp [rowClick, this]
  refine ⟨?_, hc, hn, ?_, ?_⟩
  · constructor
    · intro h
      by_contra hne
      rw [hn hne] at h
      exact absurd h (by decide)
    · intro h
      rw [hc h]
      rfl
  · intro h
    exact hn (by rw [h]; decide)
  · intro h
    exact hn (by rw [h]; decide)

theorem C18_row_selectable_iff_completed_witness :
    rowClick (.obj [("upload_id", .str "u1"), ("status", .str "completed")]) = some (.str "u1") ∧
    rowClick (.obj [("upload_id", .str "u2"), ("status", .str "processing")]) = none :=
  ⟨(C18_row_selectable_iff_completed
      (.obj [("upload_id", .str "u1"), ("status", .str "completed")])).2.1 (by decide),
    by decide⟩

/-! ## C19 -/

/-- C19: when the delete request of `handleDeleteUpload` fails, the whole state
is unchanged (`analysisResults`, `isAnalyzing`, `processingStatus`,
`showHistory` and the history cache among it), the DELETE is the only request
issued (no history refresh) and exactly one error notification is raised. -/
theorem C19_failed_delete_changes_nothing (s : State) (uploadId : JsVal) (e : Thrown)
    (history : Reply) :
    (handleDeleteUpload uploadId (.error e) history s).state = s ∧
    (handleDeleteUpload uploadId (.error e) history s).requests = [.deleteUpload uploadId] ∧
    (handleDeleteUpload uploadId (.error e) history s).toasts
      = [⟨.error, .lit "Failed to delete upload"⟩] := by
  simp [handleDeleteUpload]

/-! ## C20 -/

/-- C20: when the submit request of `handleAnalysis` fails, `uploadId`,
`analysisResults` and `uploadHistory` keep their values, `isAnalyzing = false`,
`uploadProgress = 0` and `processingStatus = null`, no poll interval is started,
the POST is the only request issued and exactly one error notification is
raised. -/
theorem C20_failed_submission_creates_no_job (s : State) (events : List ProgressEvent)
    (e : Thrown) (fileContent filename : String)
    (hvalid : payload s = some (fileContent, filename)) :
    (handleAnalysis events (.error e) s).state.uploadId = s.uploadId ∧
    (handleAnalysis events (.error e) s).state.analysisResults = s.analysisResults ∧
    (handleAnalysis events (.error e) s).state.uploadHistory = s.uploadHistory ∧
    (handleAnalysis events (.error e) s).value = none ∧
    (handleAnalysis events (.error e) s).state.isAnalyzing = false ∧
    (handleAnalysis events (.error e) s).state.uploadProgress = .fin 0 ∧
    (handleAnalysis events (.error e) s).state.processingStatus = none ∧
    (handleAnalysis events (.error e) s).state
      = { s with isAnalyzing := false, uploadProgress := .fin 0, processingStatus := none } ∧
    (handleAnalysis events (.error e) s).toasts
      = [⟨.error, .lit "Failed to analyze CSV. Please try again."⟩] ∧
    (handleAnalysis events (.error e) s).requests = [.postUpload (.obj
      [("file", .str fileContent), ("filename", .str filename),
       ("upload_name", (JsVal.str (jsTrim s.uploadName)).or .null)])] := by
  rw [handleAnalysis_of_payload events _ s fileContent filename hvalid, submit_failed]
  simp

theorem C20_failed_submission_creates_no_job_witness :
    payload pastedState = some ("a,b\n1,2", "pasted-data.csv") ∧
    (handleAnalysis [⟨5, 10⟩] (.error ⟨some ⟨500, .null⟩⟩) pastedState).state.uploadId = .null ∧
    (handleAnalysis [⟨5, 10⟩] (.error ⟨some ⟨500, .null⟩⟩) pastedState).state.isAnalyzing
      = false ∧
    (handleAnalysis [⟨5, 10⟩] (.error ⟨some ⟨500, .null⟩⟩) pastedState).state.uploadProgress
      = .fin 0 :=
  have h := C20_failed_submission_creates_no_job pastedState [⟨5, 10⟩] ⟨some ⟨500, .null⟩⟩
    "a,b\n1,2" "pasted-data.csv" (by decide)
  ⟨by decide, h.1, h.2.2.2.2.1, h.2.2.2.2.2.1⟩

/-! ## C21 -/

/-- C21 (counterexample): in file mode with a selected CSV file whose text is
empty, `handleAnalysis` issues the POST with `file: ''` and sets
`isAnalyzing = true`. -/
theorem C21_empty_file_is_posted :
    emptyFileState.uploadMethod = .file ∧
    emptyFileState.uploadedFile = some emptyFile ∧
    emptyFile.text = some "" ∧
    (handleAnalysis [] (.ok acceptedEmpty) emptyFileState).requests
      = [.postUpload (.obj
          [("file", .str ""), ("filename", .str "empty.csv"), ("upload_name", .null)])] ∧
    emptyFileState.isAnalyzing = false ∧
    (handleAnalysis [] (.ok acceptedEmpty) emptyFileState).state.isAnalyzing = true := by
  decide

/-- C21 (amended): in file mode without a selected file, and in text mode with
pasted text that is empty or only whitespace, `handleAnalysis` stops before any
network call: no request is issued, the whole state is unchanged, no poll
interval is started and one error notification is raised. -/
theorem C21_missing_input_rejected (s : State) (events : List ProgressEvent) (reply : Reply)
    (hmissing : (s.uploadMethod = .file ∧ s.uploadedFile = none) ∨
      (s.uploadMethod = .text ∧ s.csvText.data.all isJsWhitespace = true)) :
    (handleAnalysis events reply s).requests = [] ∧
    (handleAnalysis events reply s).state = s ∧
    (handleAnalysis events reply s).value = none ∧
    (handleAnalysis events reply s).toasts
      = [⟨.error, .lit (if s.uploadMethod = .file then "Please upload a CSV file first"
          else "Please paste CSV data first")⟩] := by
  rcases hmissing with ⟨hm, hf⟩ | ⟨hm, hb⟩
  · rw [handleAnalysis_no_file events reply s hm hf]
    simp [hm]
  · rw [handleAnalysis_blank_text events reply s hm hb]
    simp [hm]

theorem C21_missing_input_rejected_witness :
    (blankTextState.uploadMethod = .text ∧
      blankTextState.csvText.data.all isJsWhitespace = true) ∧
    (handleAnalysis [] (.ok acceptedU1) blankTextState).requests = [] ∧
    (handleAnalysis [] (.ok acceptedU1) blankTextState).state = blankTextState :=
  have h := C21_missing_input_rejected blankTextState [] (.ok acceptedU1)
    (Or.inr ⟨by decide, by decide⟩)
  ⟨⟨by decide, by decide⟩, h.1, h.2.1⟩

/-! ## C22 -/

/-- C22: a successful `fetchUploadHistory` whose body is an object replaces the
history cache by `uploads || []`: by the `uploads` list of the response as
received, whatever the cache held, and by the empty list when the response has
no `uploads` field.  Nothing else in the state changes and nothing is
notified. -/
theorem C22_history_replaced_wholesale (s : State) (response : AxiosResponse)
    (hbody : response.data.isNullish = false) :
    (fetchUploadHistory (.ok response) s).state
      = { s with uploadHistory := (response.data.get "uploads").or (.arr []) } ∧
    (∀ uploads : List JsVal, response.data.get "uploads" = .arr uploads →
      (fetchUploadHistory (.ok response) s).state.uploadHistory = .arr uploads) ∧
    (response.data.get "uploads" = .undefined →
      (fetchUploadHistory (.ok response) s).state.uploadHistory = .arr []) ∧
    (∀ s2 : State, (fetchUploadHistory (.ok response) s2).state.uploadHistory
      = (fetchUploadHistory (.ok response) s).state.uploadHistory) ∧
    (fetchUploadHistory (.ok response) s).toasts = [] ∧
    (fetchUploadHistory (.ok response) s).requests = [.getHistory] := by
  refine ⟨by simp [fetchUploadHistory, hbody], ?_, ?_, ?_, by simp [fetchUploadHistory, hbody],
    by simp [fetchUploadHistory, hbody]⟩
  · intro uploads hu
    simp [fetchUploadHistory, hbody, hu, JsVal.or, JsVal.truthy]
  · intro hu
    simp [fetchUploadHistory, hbody, hu, JsVal.or, JsVal.truthy]
  · intro s2
    simp [fetchUploadHistory, hbody]

theorem C22_history_replaced_wholesale_witness :
    historyBody.isNullish = false ∧
    cachedHistoryState.uploadHistory
      = .arr [.obj [("upload_id", .str "u0"), ("status", .str "completed")]] ∧
    (fetchUploadHistory (.ok ⟨200, historyBody⟩) cachedHistoryState).state.uploadHistory
      = .arr [.obj [("upload_id", .str "u2"), ("status", .str "processing")],
              .obj [("upload_id", .str "u1"), ("status", .str "completed")]] :=
  ⟨by decide, by decide,
    (C22_history_replaced_wholesale cachedHistoryState ⟨200, historyBody⟩ (by decide)).2.1 _
      (by decide)⟩

/-! ## C23 -/

/-- C23: a poll tick raises one notification when it returns `true` and none
when it returns `false`; a submission rejected by the checks of
`handleAnalysis`, a failed submission, a synchronous completion, a select
(success or failure) and a delete (success or failure) each raise exactly one
notification. -/
theorem C23_one_notification_per_action :
    (∀ (uploadId : JsVal) (reply : Reply) (s : State),
      (pollStatus uploadId reply s).toasts.length
        = if (pollStatus uploadId reply s).value = true then 1 else 0) ∧
    (∀ (events : List ProgressEvent) (reply : Reply) (s : State),
      ((s.uploadMethod = .file ∧ s.uploadedFile = none) ∨
        (s.uploadMethod = .text ∧ s.csvText.data.all isJsWhitespace = true)) →
      (handleAnalysis events reply s).toasts.length = 1) ∧
    (∀ (events : List ProgressEvent) (e : Thrown) (s : State) (fileContent filename : String),
      payload s = some (fileContent, filename) →
      (handleAnalysis events (.error e) s).toasts.length = 1) ∧
    (∀ (events : List ProgressEvent) (response : AxiosResponse) (s : State)
      (fileContent filename : String),
      payload s = some (fileContent, filename) → response.status ≠ 202 →
      (handleAnalysis events (.ok response) s).toasts.length = 1) ∧
    (∀ (uploadId : JsVal) (reply : Reply) (s : State),
      (handleSelectUpload uploadId reply s).toasts.length = 1) ∧
    (∀ (uploadId : JsVal) (deleted history : Reply) (s : State),
      (handleDeleteUpload uploadId deleted history s).toasts.length = 1) := by
  refine ⟨pollStatus_toasts_length, ?_, ?_, ?_, handleSelectUpload_toasts_length,
    handleDeleteUpload_toasts_length⟩
  · intro events reply s h
    rcases h with ⟨hm, hf⟩ | ⟨hm, hb⟩
    · rw [handleAnalysis_no_file events reply s hm hf]
      rfl
    · rw [handleAnalysis_blank_text events reply s hm hb]
      rfl
  · intro events e s fileContent filename hp
    rw [handleAnalysis_of_payload events _ s fileContent filename hp, submit_failed]
    rfl
  · intro events response s fileContent filename hp h202
    obtain ⟨u, hu⟩ := submit_synchronous fileContent filename events response s h202
    rw [handleAnalysis_of_payload events _ s fileContent filename hp, hu]
    rfl

theorem C23_one_notification_per_action_witness :
    (pollStatus (.str "u1") (.ok ⟨200, partialBody⟩) processingU1).toasts.length = 0 ∧
    (pollStatus (.str "u1") (.ok ⟨200, completedU1⟩) processingU1).toasts.length = 1 ∧
    (handleAnalysis [] (.ok acceptedU1) blankTextState).toasts.length = 1 ∧
    (handleDeleteUpload (.str "u1") deleteAck emptyHistory displayedU1).toasts.length = 1 :=
  ⟨(C23_one_notification_per_action.1 (.str "u1") (.ok ⟨200, partialBody⟩) processingU1).trans
      (by decide),
    (C23_one_notification_per_action.1 (.str "u1") (.ok ⟨200, completedU1⟩) processingU1).trans
      (by decide),
    C23_one_notification_per_action.2.1 [] (.ok acceptedU1) blankTextState
      (Or.inr ⟨by decide, by decide⟩),
    C23_one_notification_per_action.2.2.2.2.2 (.str "u1") deleteAck emptyHistory displayedU1⟩

/-! ## C24 -/

/-- C24 (counterexample): a failed `fetchUploadHistory` raises no notification. -/
theorem C24_failed_history_fetch_is_silent :
    (fetchUploadHistory (.error ⟨none⟩) cachedHistoryState).toasts = [] ∧
    (fetchUploadHistory (.error ⟨some ⟨500, .null⟩⟩) cachedHistoryState).toasts = [] := by
  decide

/-- C24 (amended): whenever the request made by `handleSelectUpload` or by
`handleDeleteUpload` fails, exactly one error notification is raised.  A failed
request of `fetchUploadHistory` raises none: the failure is only logged and the
whole state, the history cache included, is unchanged. -/
theorem C24_select_and_delete_failures_surface (s : State) (uploadId : JsVal) (e : Thrown)
    (history : Reply) :
    (handleSelectUpload uploadId (.error e) s).toasts
      = [⟨.error, .lit "Failed to load analysis"⟩] ∧
    (handleDeleteUpload uploadId (.error e) history s).toasts
      = [⟨.error, .lit "Failed to delete upload"⟩] ∧
    (fetchUploadHistory (.error e) s).toasts = [] ∧
    (fetchUploadHistory (.error e) s).state = s := by
  simp [handleSelectUpload, handleDeleteUpload, fetchUploadHistory]

/-! ## C25 -/

/-- C25: a `failed` status reply leaves `analysisResults` as it was, for every
prior state; a partial view stored by an earlier `processing` tick (with
`summary.partial = true` and `items = []`) is therefore still the value of
`analysisResults` after the `failed` tick. -/
theorem C25_failed_keeps_analysisResults (s : State) (uploadId : JsVal)
    (response : AxiosResponse)
    (hfailed : (response.data.get "status").strictEq (.str "failed") = true) :
    (pollStatus uploadId (.ok response) s).state.analysisResults = s.analysisResults ∧
    (∀ processing : AxiosResponse,
      (processing.data.get "status").strictEq (.str "processing") = true →
      (processing.data.get "summary").truthy = true →
      (pollState uploadId [.ok processing, .ok response] s).analysisResults
        = partialResults processing.data ∧
      (pollState uploadId [.ok processing, .ok response] s).analysisResults.get "items"
        = .arr [] ∧
      ((pollState uploadId [.ok processing, .ok response] s).analysisResults.get
        "summary").get "partial" = .bool true) := by
  have hkeep : ∀ s0 : State,
      (pollStatus uploadId (.ok response) s0).state.analysisResults = s0.analysisResults := by
    intro s0
    rw [pollStatus_failed uploadId response s0 hfailed]
  refine ⟨hkeep s, ?_⟩
  intro processing hp hsum
  have hstate : (pollState uploadId [.ok processing, .ok response] s).analysisResults
      = partialResults processing.data := by
    simp only [pollState, pollStatus_processing_summary uploadId processing s hp hsum,
      pollStatus_failed uploadId response _ hfailed]
    simp
  refine ⟨hstate, ?_, ?_⟩
  · rw [hstate]
    simp only [partialResults, JsVal.get, JsVal.ownProps]
    rw [JsVal.lookup_setField_other _ _ _ _ (by decide), JsVal.lookup_setField_same]
  · rw [hstate]
    simp only [partialResults, JsVal.get, JsVal.ownProps]
    rw [JsVal.lookup_setField_same]
    simp only [JsVal.ownProps]
    rw [JsVal.lookup_setField_same]

theorem C25_failed_keeps_analysisResults_witness :
    (failedWithMessage.get "status").strictEq (.str "failed") = true ∧
    displayedU1.analysisResults = partialResults partialBodyU1 ∧
    (pollStatus (.str "u1") (.ok ⟨200, failedWithMessage⟩) displayedU1).state.analysisResults
      = displayedU1.analysisResults :=
  ⟨by decide, by decide,
    (C25_failed_keeps_analysisResults displayedU1 (.str "u1") ⟨200, failedWithMessage⟩
      (by decide)).1⟩

/-! ## C26 -/

/-- C26: when `analysisResults` is null (falsy) or its `upload_id` is not `u`,
a successful `handleDeleteUpload(u)` leaves `analysisResults`, `isAnalyzing`,
`processingStatus` and `showHistory` unchanged and changes nothing but the
history cache, which it refreshes after the DELETE; the tracked `uploadId` is
not consulted: replacing it changes nothing in what the handler does. -/
theorem C26_delete_other_job_keeps_view (s : State) (u : JsVal) (deleted : AxiosResponse)
    (history : Reply)
    (hother : s.analysisResults.truthy = false ∨
      (s.analysisResults.get "upload_id").strictEq u = false) :
    (handleDeleteUpload u (.ok deleted) history s).state.analysisResults = s.analysisResults ∧
    (handleDeleteUpload u (.ok deleted) history s).state.isAnalyzing = s.isAnalyzing ∧
    (handleDeleteUpload u (.ok deleted) history s).state.processingStatus
      = s.processingStatus ∧
    (handleDeleteUpload u (.ok deleted) history s).state.showHistory = s.showHistory ∧
    (handleDeleteUpload u (.ok deleted) history s).state
      = { s with uploadHistory := (fetchUploadHistory history s).state.uploadHistory } ∧
    (handleDeleteUpload u (.ok deleted) history s).requests = [.deleteUpload u, .getHistory] ∧
    (∀ tracked : JsVal,
      (handleDeleteUpload u (.ok deleted) history { s with uploadId := tracked }).state
        = { (handleDeleteUpload u (.ok deleted) history s).state with uploadId := tracked } ∧
      (handleDeleteUpload u (.ok deleted) history { s with uploadId := tracked }).toasts
        = (handleDeleteUpload u (.ok deleted) history s).toasts) := by
  have hguard : (s.analysisResults.truthy &&
      (s.analysisResults.get "upload_id").strictEq u) = false := by
    rcases hother with h | h <;> simp [h]
  have hfetch : ∀ s0 : State, (fetchUploadHistory history s0).state
      = { s0 with uploadHistory := (fetchUploadHistory history s0).state.uploadHistory } := by
    intro s0
    obtain ⟨h, hh⟩ := fetchUploadHistory_state history s0
    rw [hh]
  have hcache : ∀ s0 s1 : State, s0.uploadHistory = s1.uploadHistory →
      (fetchUploadHistory history s0).state.uploadHistory
        = (fetchUploadHistory history s1).state.uploadHistory := by
    intro s0 s1 h01
    cases history with
    | error e => simpa [fetchUploadHistory] using h01
    | ok response =>
      by_cases hn : response.data.isNullish = true
      · simpa [fetchUploadHistory, hn] using h01
      · simp [fetchUploadHistory, hn]
  have hstate : (handleDeleteUpload u (.ok deleted) history s).state
      = { s with uploadHistory := (fetchUploadHistory history s).state.uploadHistory } := by
    simp only [handleDeleteUpload, hguard]
    exact hfetch s
  refine ⟨by rw [hstate], by rw [hstate], by rw [hstate], by rw [hstate], hstate, ?_, ?_⟩
  · simp [handleDeleteUpload, (fetchUploadHistory_toasts history _).2]
  · intro tracked
    constructor
    · have h1 := hfetch { s with uploadId := tracked }
      have h2 := hcache { s with uploadId := tracked } s rfl
      rw [hstate]
      simp only [handleDeleteUpload, hguard, Bool.false_eq_true, if_false]
      rw [h1, h2]
    · simp [handleDeleteUpload, (fetchUploadHistory_toasts history _).1]

theorem C26_delete_other_job_keeps_view_witness :
    (processingU1.analysisResults.truthy = false ∨
      (processingU1.analysisResults.get "upload_id").strictEq (.str "u1") = false) ∧
    processingU1.uploadId = .str "u1" ∧
    (handleDeleteUpload (.str "u1") (.ok ⟨200, .null⟩) emptyHistory processingU1).state.isAnalyzing
      = processingU1.isAnalyzing ∧
    (handleDeleteUpload (.str "u1") (.ok ⟨200, .null⟩) emptyHistory processingU1).state.showHistory
      = processingU1.showHistory :=
  have h := C26_delete_other_job_keeps_view processingU1 (.str "u1") ⟨200, .null⟩ emptyHistory
    (Or.inl (by decide))
  ⟨Or.inl (by decide), by decide, h.2.1, h.2.2.2.1⟩

end Arbitrage
